import Mathlib

/-!
Verification development for a Kotlin-subset lexer and recursive-descent
parser.  The lexer is embedded from src/lexer/lexer.py, the parser from
src/LexerProject/parser_kotlin.py.  Loops of the lexer are rendered as
fuel-indexed structural recursions (every loop advances the cursor by at
least one character per iteration, so a fuel of `source.length + 1` is
always sufficient); the public entry points supply that fuel themselves,
so their statements are fuel free.
-/

namespace KLexer

/-- Operator table (OPERADORES of lexer.py), longest-match keys. -/
def OPERADORES : List (String × String) :=
  [("=", "OP_ASSIGN"),
   ("+", "OP_PLUS"), ("-", "OP_MINUS"), ("*", "OP_MUL"), ("/", "OP_DIV"), ("%", "OP_MOD"),
   ("===", "OP_EQ_STRICT"), ("!==", "OP_NEQ_STRICT"), ("==", "OP_EQ"), ("!=", "OP_NEQ"),
   ("<=", "OP_LE"), (">=", "OP_GE"), ("<", "OP_LT"), (">", "OP_GT"),
   ("&&", "OP_AND"), ("||", "OP_OR"), ("!", "OP_NOT"),
   ("++", "OP_INC"), ("--", "OP_DEC"), ("+=", "OP_PLUS_ASSIGN"), ("-=", "OP_MINUS_ASSIGN"),
   ("*=", "OP_MUL_ASSIGN"), ("/=", "OP_DIV_ASSIGN"),
   ("->", "OP_ARROW"), ("..<", "OP_RANGE_UNTIL"), ("..", "OP_RANGE"),
   ("?.", "OP_SAFE_CALL"), ("?:", "OP_ELVIS"), ("!!", "OP_NOT_NULL"),
   ("::", "OP_REF")]

/-- Single-character symbol table (SIMBOLOS of lexer.py). -/
def SIMBOLOS : List (Char × String) :=
  [('(', "LPAREN"), (')', "RPAREN"), ('\x7b', "LBRACE"), ('\x7d', "RBRACE"),
   ('[', "LBRACKET"), (']', "RBRACKET"), (',', "COMMA"), (';', "SEMICOLON"),
   (':', "COLON"), ('.', "DOT"), ('@', "AT"), ('?', "QUESTION")]

def MODIFIER_KEYWORDS : List String :=
  ["abstract", "actual", "annotation", "companion", "const", "crossinline",
   "data", "enum", "expect", "external", "final", "infix", "inline", "inner",
   "internal", "lateinit", "noinline", "open", "operator", "out", "override",
   "private", "protected", "public", "reified", "sealed", "suspend", "tailrec",
   "vararg"]

def SOFT_KEYWORDS : List String :=
  ["by", "catch", "constructor", "delegate", "dynamic", "field", "file",
   "finally", "get", "import", "init", "param", "property", "receiver", "set",
   "setparam", "value", "where"]

def HARD_KEYWORDS : List String :=
  ["as", "as?", "break", "class", "continue", "do", "else", "false", "for", "fun",
   "if", "in", "!in", "interface", "is", "!is", "null", "object", "package",
   "return", "super", "this", "throw", "true", "try", "typealias", "typeof", "val",
   "var", "when", "while"]

/-- Token produced by the lexer (class Token of lexer.py). -/
structure Token where
  tipo : String
  lexema : String
  linha : Nat
  coluna : Nat
deriving Repr, DecidableEq

/-- Mutable cursor state of class Lexer: source text, reading position,
1-based line and column. -/
structure LexSt where
  source : List Char
  pos : Nat
  linha : Nat
  coluna : Nat
deriving Repr, DecidableEq

/-- Lexer.ch_atual: current character, the NUL sentinel past the end. -/
def chAtual (st : LexSt) : Char := st.source.getD st.pos '\x00'

/-- Lexer.ch_proximo: one-character lookahead, NUL past the end. -/
def chProximo (st : LexSt) : Char := st.source.getD (st.pos + 1) '\x00'

/-- Lexer.avancar: consume one character, maintaining line/column. -/
def avancar (st : LexSt) : LexSt :=
  if chAtual st = '\n' then
    { st with pos := st.pos + 1, linha := st.linha + 1, coluna := 1 }
  else
    { st with pos := st.pos + 1, coluna := st.coluna + 1 }

/-- Python slice source[a:b] rendered as a Lean string. -/
def sliceStr (source : List Char) (a b : Nat) : String :=
  ⟨(source.drop a).take (b - a)⟩

/-- Loop of Lexer.pular_linha. -/
def pularLinhaLoop : Nat → LexSt → LexSt
  | 0, st => st
  | fuel + 1, st =>
    if chAtual st ≠ '\n' ∧ chAtual st ≠ '\x00' then pularLinhaLoop fuel (avancar st) else st

/-- Lexer.pular_linha: skip to the end of the current line, consuming the newline. -/
def pularLinha (st : LexSt) : LexSt :=
  let st1 := pularLinhaLoop (st.source.length + 1) st
  if chAtual st1 = '\n' then avancar st1 else st1

/-- Loop of Lexer.pular_espaco. -/
def pularEspacoLoop : Nat → LexSt → LexSt
  | 0, st => st
  | fuel + 1, st =>
    if chAtual st = ' ' ∨ chAtual st = '\t' ∨ chAtual st = '\r' ∨ chAtual st = '\n' then
      pularEspacoLoop fuel (avancar st)
    else st

/-- Lexer.pular_espaco: skip whitespace. -/
def pularEspaco (st : LexSt) : LexSt := pularEspacoLoop (st.source.length + 1) st

/-- Loop of Lexer.pular_comentario_linha (does not consume the newline). -/
def pularComentarioLinhaLoop : Nat → LexSt → LexSt
  | 0, st => st
  | fuel + 1, st =>
    if chAtual st ≠ '\n' ∧ chAtual st ≠ '\x00' then
      pularComentarioLinhaLoop fuel (avancar st)
    else st

/-- Lexer.pular_comentario_linha. -/
def pularComentarioLinha (st : LexSt) : LexSt :=
  pularComentarioLinhaLoop (st.source.length + 1) st

/-- Loop of Lexer.pular_comentario_blocos, tracking nesting depth.  Each
iteration advances the cursor, so the fuel supplied by the wrapper is
never exhausted. -/
def pularComentarioBlocosLoop : Nat → Nat → LexSt → Except String LexSt
  | 0, _, st => .ok st
  | fuel + 1, profundidade, st =>
    if profundidade > 0 then
      if chAtual st = '\x00' then .error "erro lexico: comentario nao fechado!"
      else if chAtual st = '/' ∧ chProximo st = '*' then
        pularComentarioBlocosLoop fuel (profundidade + 1) (avancar (avancar st))
      else if chAtual st = '*' ∧ chProximo st = '/' then
        pularComentarioBlocosLoop fuel (profundidade - 1) (avancar (avancar st))
      else
        pularComentarioBlocosLoop fuel profundidade (avancar st)
    else .ok st

/-- Lexer.pular_comentario_blocos: skip a nested block comment; the two
leading characters are consumed before the loop starts. -/
def pularComentarioBlocos (st : LexSt) : Except String LexSt :=
  pularComentarioBlocosLoop (st.source.length + 1) 1 (avancar (avancar st))

/-- Lexer.eh_hex (membership of the lowered character in "abcdef"). -/
def ehHex (ch : Char) : Bool := ch.isDigit || "abcdef".toList.contains ch.toLower

/-- Lexer.eh_bin. -/
def ehBin (ch : Char) : Bool := ch = '0' || ch = '1'

/-- Lexer.eh_separador. -/
def ehSeparador (ch : Char) : Bool := ch = '_'

/-- The digit-group loops of Lexer.reconhece_literais_numericos: consume
digits (as classified by `eh`) and underscore separators, remembering
whether at least one real digit was seen. -/
def loopDigits (eh : Char → Bool) : Nat → Bool → LexSt → Bool × LexSt
  | 0, encontrou, st => (encontrou, st)
  | fuel + 1, encontrou, st =>
    if eh (chAtual st) || ehSeparador (chAtual st) then
      loopDigits eh fuel (encontrou || eh (chAtual st)) (avancar st)
    else (encontrou, st)

/-- The plain decimal-digit loops (integer part, fraction, exponent) of
Lexer.reconhece_literais_numericos. -/
def loopDec : Nat → LexSt → LexSt
  | 0, st => st
  | fuel + 1, st =>
    if (chAtual st).isDigit || ehSeparador (chAtual st) then loopDec fuel (avancar st) else st

/-- The integer-suffix loop (u/U/l/L in any order). -/
def loopSufixoInteiro : Nat → LexSt → LexSt
  | 0, st => st
  | fuel + 1, st =>
    if (chAtual st).toLower = 'u' ∨ (chAtual st).toLower = 'l' then
      loopSufixoInteiro fuel (avancar st)
    else st

/-- Lexer.reconhece_literais_numericos: scan an integer/float/hex/binary
literal.  Binary and hexadecimal groups must contain at least one real
digit, otherwise the scan is a fatal lexical failure. -/
def reconheceLiteraisNumericos (st0 : LexSt) : Except String (Token × LexSt) :=
  let inicio := st0.pos
  let linha := st0.linha
  let coluna := st0.coluna
  let fuel := st0.source.length + 1
  -- the three scanning branches; they yield the flags tem_ponto/tem_expoente
  let core : Except String (Bool × Bool × LexSt) :=
    if chAtual st0 = '0' ∧ (chProximo st0).toLower = 'b' then
      let st1 := avancar (avancar st0)
      let r := loopDigits ehBin fuel false st1
      if !r.1 then
        .error s!"erro lexico: literal binario sem digitos na linha {linha}, coluna {coluna}"
      else .ok (false, false, r.2)
    else if chAtual st0 = '0' ∧ (chProximo st0).toLower = 'x' then
      let st1 := avancar (avancar st0)
      let r := loopDigits ehHex fuel false st1
      if !r.1 then
        .error s!"erro lexico: literal hexadecimal sem digitos na linha {linha}, coluna {coluna}"
      else .ok (false, false, r.2)
    else
      let st1 := loopDec fuel st0
      let pr :=
        if chAtual st1 = '.' then (true, loopDec fuel (avancar st1)) else (false, st1)
      let st2 := pr.2
      let er :=
        if (chAtual st2).toLower = 'e' then
          let st3 := avancar st2
          let st4 := if chAtual st3 = '+' ∨ chAtual st3 = '-' then avancar st3 else st3
          (true, loopDec fuel st4)
        else (false, st2)
      .ok (pr.1, er.1, er.2)
  match core with
  | .error e => .error e
  | .ok (temPonto, temExpoente, st5) =>
    let st6 := loopSufixoInteiro fuel st5
    let fr :=
      if (chAtual st6).toLower = 'f' then ("FLOAT_LITERAL", avancar st6) else ("INT_LITERAL", st6)
    let tipo := if temPonto ∨ temExpoente then "FLOAT_LITERAL" else fr.1
    let st7 := fr.2
    .ok (⟨tipo, sliceStr st0.source inicio st7.pos, linha, coluna⟩, st7)

/-- The identifier-consuming loop (alphanumeric or underscore). -/
def loopIdent : Nat → LexSt → LexSt
  | 0, st => st
  | fuel + 1, st =>
    if (chAtual st).isAlphanum || chAtual st = '_' then loopIdent fuel (avancar st) else st

/-- Lexer.reconhece_identificadores: scan an identifier and classify it
against the keyword tables. -/
def reconheceIdentificadores (st0 : LexSt) : Token × LexSt :=
  let inicio := st0.pos
  let linha := st0.linha
  let coluna := st0.coluna
  let st1 := loopIdent (st0.source.length + 1) st0
  let lexema := sliceStr st0.source inicio st1.pos
  let tipo :=
    if HARD_KEYWORDS.contains lexema then "HARD_KEYWORDS"
    else if MODIFIER_KEYWORDS.contains lexema then "MODIFIER_KEYWORDS"
    else if SOFT_KEYWORDS.contains lexema then "SOFT_KEYWORDS"
    else "IDENTIFIER"
  (⟨tipo, lexema, linha, coluna⟩, st1)

/-- Loop of Lexer.reconhece_identificador_crase (scan to the closing backtick). -/
def loopCrase : Nat → LexSt → LexSt
  | 0, st => st
  | fuel + 1, st =>
    if chAtual st ≠ '`' ∧ chAtual st ≠ '\x00' then loopCrase fuel (avancar st) else st

/-- Lexer.reconhece_identificador_crase: backtick-quoted identifier. -/
def reconheceIdentificadorCrase (st0 : LexSt) : Except String (Token × LexSt) :=
  let linha := st0.linha
  let coluna := st0.coluna
  let st1 := avancar st0
  let inicio := st1.pos
  let st2 := loopCrase (st1.source.length + 1) st1
  if chAtual st2 ≠ '`' then
    .error s!"Identificador com crase nao fechado na linha: {linha}, coluna: {coluna}"
  else
    .ok (⟨"Quoted_identifier", sliceStr st0.source inicio st2.pos, linha, coluna⟩, avancar st2)

/-- Iterated avancar, used for the multi-character operator/keyword matches. -/
def avancarN : Nat → LexSt → LexSt
  | 0, st => st
  | n + 1, st => avancarN n (avancar st)

/-- One length attempt of Lexer.reconhece_operadores. -/
def tentaOperador (tamanho : Nat) (st : LexSt) : Option (Token × LexSt) :=
  let lexema := sliceStr st.source st.pos (st.pos + tamanho)
  match OPERADORES.lookup lexema with
  | some tipo => some (⟨tipo, lexema, st.linha, st.coluna⟩, avancarN tamanho st)
  | none => none

/-- Lexer.reconhece_operadores: maximal munch, lengths 3 then 2 then 1. -/
def reconheceOperadores (st : LexSt) : Option (Token × LexSt) :=
  match tentaOperador 3 st with
  | some r => some r
  | none =>
    match tentaOperador 2 st with
    | some r => some r
    | none => tentaOperador 1 st

/-- Python str.startswith(kw, pos). -/
def startsWithFrom (source : List Char) (pos : Nat) (kw : List Char) : Bool :=
  (source.drop pos).take kw.length = kw

/-- Lexer.reconhece_hard_keyword_composta: try the composite keywords
"as?", "!in", "!is" at the current position. -/
def reconheceHardKeywordComposta (st : LexSt) : Option (Token × LexSt) :=
  if startsWithFrom st.source st.pos "as?".toList then
    some (⟨"HARD_KEYWORD", "as?", st.linha, st.coluna⟩, avancarN 3 st)
  else if startsWithFrom st.source st.pos "!in".toList then
    some (⟨"HARD_KEYWORD", "!in", st.linha, st.coluna⟩, avancarN 3 st)
  else if startsWithFrom st.source st.pos "!is".toList then
    some (⟨"HARD_KEYWORD", "!is", st.linha, st.coluna⟩, avancarN 3 st)
  else none

/-- Lexer.reconhece_char_literal: a plain character or a two-character
escape between single quotes; the token text is source[pos-3:pos] taken at
the final cursor position. -/
def reconheceCharLiteral (st0 : LexSt) : Except String (Token × LexSt) :=
  let linha := st0.linha
  let coluna := st0.coluna
  let st1 := avancar st0
  if chAtual st1 = '\x00' ∨ chAtual st1 = '\n' then
    .error "erro lexico: literal de caractere invalido"
  else
    let mid : Except String LexSt :=
      if chAtual st1 = '\\' then
        let st2 := avancar st1
        if chAtual st2 = '\x00' then .error "erro lexico: escape invalido em char"
        else .ok (avancar st2)
      else .ok (avancar st1)
    match mid with
    | .error e => .error e
    | .ok st3 =>
      if chAtual st3 ≠ '\'' then
        .error s!"erro lexico: literal de caractere invalido na linha {linha}, coluna {coluna}"
      else
        let st4 := avancar st3
        .ok (⟨"CHAR_LITERAL", sliceStr st0.source (st4.pos - 3) st4.pos, linha, coluna⟩, st4)

/-- The content loop of a ${...} interpolation block: accumulate raw text
until the closing brace or end of input. -/
def loopConteudo : Nat → String → LexSt → String × LexSt
  | 0, conteudo, st => (conteudo, st)
  | fuel + 1, conteudo, st =>
    if chAtual st ≠ '\x7d' ∧ chAtual st ≠ '\x00' then
      loopConteudo fuel (conteudo.push (chAtual st)) (avancar st)
    else (conteudo, st)

/-- Main loop of Lexer.reconhece_string_interpolada, carrying the pending
literal-text buffer and its start position; returns the tokens produced
from the current point on.  Every iteration consumes at least one
character. -/
def stringLoop : Nat → String → Nat → Nat → LexSt → Except String (List Token × LexSt)
  | 0, _, _, _, st => .ok ([], st)
  | fuel + 1, buffer, bufLinha, bufColuna, st =>
    let ch := chAtual st
    if ch = '\x00' then .error "erro lexico: string nao fechada"
    else if ch = '"' then
      let flushed := if buffer ≠ "" then [⟨"STRING_TEXT", buffer, bufLinha, bufColuna⟩] else []
      .ok (flushed ++ [⟨"STRING_END", "\"", st.linha, st.coluna⟩], avancar st)
    else if ch = '$' then
      let flushed := if buffer ≠ "" then [⟨"STRING_TEXT", buffer, bufLinha, bufColuna⟩] else []
      let st1 := avancar st
      if chAtual st1 = '\x7b' then
        let startTok : Token := ⟨"STRING_INTERP_START", "$\x7b", st1.linha, st1.coluna⟩
        let st2 := avancar st1
        let cr := loopConteudo (st2.source.length + 1) "" st2
        let st3 := cr.2
        if chAtual st3 ≠ '\x7d' then .error "erro lexico: interpolacao nao fechada"
        else
          let exprTok : Token := ⟨"STRING_INTERP_EXPR", cr.1, st2.linha, st2.coluna⟩
          let endTok : Token := ⟨"STRING_INTERP_END", "\x7d", st3.linha, st3.coluna⟩
          let st4 := avancar st3
          match stringLoop fuel "" st4.linha st4.coluna st4 with
          | .error e => .error e
          | .ok (rest, st5) => .ok (flushed ++ startTok :: exprTok :: endTok :: rest, st5)
      else
        let inicio := st1.pos
        let st2 := loopIdent (st1.source.length + 1) st1
        if st2.pos = inicio then
          .error s!"erro lexico: interpolacao invalida na linha {st2.linha}, coluna {st2.coluna}"
        else
          let identTok : Token :=
            ⟨"STRING_INTERP_ID", sliceStr st1.source inicio st2.pos, st2.linha, st2.coluna⟩
          match stringLoop fuel "" st2.linha st2.coluna st2 with
          | .error e => .error e
          | .ok (rest, st5) => .ok (flushed ++ identTok :: rest, st5)
    else if ch = '\\' then
      let st1 := avancar st
      stringLoop fuel ((buffer.push ch).push (chAtual st1)) bufLinha bufColuna (avancar st1)
    else
      stringLoop fuel (buffer.push ch) bufLinha bufColuna (avancar st)

/-- Lexer.reconhece_string_interpolada: a string literal yields a sequence
of tokens (STRING_START, text runs, interpolation sub-tokens, STRING_END). -/
def reconheceStringInterpolada (st0 : LexSt) : Except String (List Token × LexSt) :=
  let startTok : Token := ⟨"STRING_START", "\"", st0.linha, st0.coluna⟩
  let st1 := avancar st0
  match stringLoop (st0.source.length + 1) "" st1.linha st1.coluna st1 with
  | .error e => .error e
  | .ok (rest, st2) => .ok (startTok :: rest, st2)

/-- The non-recursive tail of Lexer.proximo_token: identifier, numeric,
string, char, backtick, composite-keyword, operator and symbol dispatch
(steps 4 to 10 of the dispatch order documented in lexer.py). -/
def tokenSimples (st : LexSt) : Except String (List Token × LexSt) :=
  if (chAtual st).isAlpha ∨ chAtual st = '_' then
    let r := reconheceIdentificadores st
    .ok ([r.1], r.2)
  else if (chAtual st).isDigit then
    match reconheceLiteraisNumericos st with
    | .error e => .error e
    | .ok (t, st1) => .ok ([t], st1)
  else if chAtual st = '"' then reconheceStringInterpolada st
  else if chAtual st = '\'' then
    match reconheceCharLiteral st with
    | .error e => .error e
    | .ok (t, st1) => .ok ([t], st1)
  else if chAtual st = '`' then
    match reconheceIdentificadorCrase st with
    | .error e => .error e
    | .ok (t, st1) => .ok ([t], st1)
  else
    match reconheceHardKeywordComposta st with
    | some (t, st1) => .ok ([t], st1)
    | none =>
      match reconheceOperadores st with
      | some (t, st1) => .ok ([t], st1)
      | none =>
        match SIMBOLOS.lookup (chAtual st) with
        | some tipo =>
          let ch := chAtual st
          let st1 := avancar st
          .ok ([⟨tipo, String.mk [ch], st1.linha, st1.coluna - 1⟩], st1)
        | none =>
          .error
            s!"erro lexico: caractere \x27{chAtual st}\x27 erro na linha {st.linha}, e coluna {st.coluna}"

/-- Lexer.proximo_token: full dispatch.  Self-recursion (shebang, skipped
comments) is fuel indexed; every recursive call strictly advances the
cursor, so the entry-point fuel source.length + 1 never runs out. -/
def proximoToken : Nat → LexSt → Except String (List Token × LexSt)
  | 0, st => .ok ([], st)
  | fuel + 1, st0 =>
    if st0.pos = 0 ∧ chAtual st0 = '#' ∧ chProximo st0 = '!' then
      proximoToken fuel (pularLinha st0)
    else
      let st := pularEspaco st0
      if chAtual st = '\x00' then .ok ([⟨"EOF", "", st.linha, st.coluna⟩], st)
      else if chAtual st = '/' ∧ chProximo st = '/' then
        proximoToken fuel (pularComentarioLinha st)
      else if chAtual st = '/' ∧ chProximo st = '*' then
        (pularComentarioBlocos st).bind (fun st1 => proximoToken fuel st1)
      else tokenSimples st

/-- Public entry point: one call of Lexer.proximo_token with sufficient fuel. -/
def nextToken (st : LexSt) : Except String (List Token × LexSt) :=
  proximoToken (st.source.length + 1) st

/-- A fresh lexer over the given source text (Lexer.__init__). -/
def initLexer (s : String) : LexSt := ⟨s.toList, 0, 1, 1⟩

/-- A digit group (maximal run of digits and separators) contains at least
one real digit. -/
def temDigito (eh : Char → Bool) (l : List Char) : Bool :=
  (l.takeWhile (fun c => eh c || ehSeparador c)).any eh

lemma avancar_source (st : LexSt) : (avancar st).source = st.source := by
  unfold avancar; split <;> rfl

lemma avancar_pos (st : LexSt) : (avancar st).pos = st.pos + 1 := by
  unfold avancar; split <;> rfl

lemma chAtual_nul {st : LexSt} (h : st.source.length ≤ st.pos) : chAtual st = '\x00' := by
  unfold chAtual; exact List.getD_eq_default _ _ h

lemma chAtual_cons {st : LexSt} {c : Char} {rest : List Char}
    (h : st.source.drop st.pos = c :: rest) : chAtual st = c := by
  unfold chAtual
  rw [List.getD_eq_getElem?_getD]
  have h2 : st.source[st.pos]? = some c := by
    rw [← List.head?_drop, h]; rfl
  rw [h2]; rfl

lemma drop_avancar (st : LexSt) :
    (avancar st).source.drop (avancar st).pos = (st.source.drop st.pos).tail := by
  rw [avancar_source, avancar_pos, List.tail_drop]

/-- What the digit-group loop reports: whether the initial flag was set or
a real digit occurs in the maximal digit/separator run at the cursor. -/
lemma loopDigits_found (eh : Char → Bool) (h0 : eh '\x00' = false) :
    ∀ fuel (st : LexSt) (encontrou : Bool), st.source.length + 1 - st.pos ≤ fuel →
      (loopDigits eh fuel encontrou st).1
        = (encontrou || temDigito eh (st.source.drop st.pos)) := by
  intro fuel
  induction fuel with
  | zero =>
    intro st enc h
    have hlen : st.source.length ≤ st.pos := by omega
    rw [List.drop_eq_nil_of_le hlen]
    simp [loopDigits, temDigito]
  | succ fuel ih =>
    intro st enc h
    by_cases hlt : st.pos < st.source.length
    · obtain ⟨c, rest, hdrop⟩ : ∃ c rest, st.source.drop st.pos = c :: rest := by
        cases hd : st.source.drop st.pos with
        | nil =>
          rw [List.drop_eq_nil_iff] at hd
          omega
        | cons c rest => exact ⟨c, rest, rfl⟩
      have hc : chAtual st = c := chAtual_cons hdrop
      rw [hdrop]
      simp only [loopDigits, hc]
      by_cases hcd : (eh c || ehSeparador c) = true
      · rw [if_pos hcd]
        rw [ih (avancar st) (enc || eh c)
            (by rw [avancar_source, avancar_pos]; omega)]
        rw [drop_avancar, hdrop]
        simp [temDigito, List.takeWhile_cons, hcd, Bool.or_assoc]
      · rw [if_neg hcd]
        simp only [Bool.not_eq_true] at hcd
        simp [temDigito, List.takeWhile_cons, hcd]
    · have hdrop : st.source.drop st.pos = [] :=
        List.drop_eq_nil_of_le (le_of_not_lt hlt)
      have hc : chAtual st = '\x00' := chAtual_nul (le_of_not_lt hlt)
      rw [hdrop]
      simp [loopDigits, hc, h0, temDigito, ehSeparador]

/-- Whether a lexer result is a fatal lexical failure (a raised exception
in the Python source). -/
def ehErro {α : Type} (r : Except String α) : Bool :=
  match r with
  | .error _ => true
  | .ok _ => false

/-- C2.  The spec claims that all three composite sequences as?, !in, !is
are emitted as one indivisible token.  The code only achieves this for
!in and !is: for as? the identifier branch of proximo_token fires first
(the letter a), producing a HARD_KEYWORDS token "as" followed by a
separate QUESTION token; the "as?" entry of
reconhece_hard_keyword_composta is unreachable, although that function
and the HARD_KEYWORDS table both list it, so the code contradicts its own
stated intent. -/
theorem C2_lexer_composite_keywords :
    nextToken (initLexer "as?") =
      .ok ([⟨"HARD_KEYWORDS", "as", 1, 1⟩], ⟨"as?".toList, 2, 1, 3⟩) ∧
    nextToken ⟨"as?".toList, 2, 1, 3⟩ =
      .ok ([⟨"QUESTION", "?", 1, 3⟩], ⟨"as?".toList, 3, 1, 4⟩) ∧
    nextToken (initLexer "!in") =
      .ok ([⟨"HARD_KEYWORD", "!in", 1, 1⟩], ⟨"!in".toList, 3, 1, 4⟩) ∧
    nextToken (initLexer "!is") =
      .ok ([⟨"HARD_KEYWORD", "!is", 1, 1⟩], ⟨"!is".toList, 3, 1, 4⟩) :=
  ⟨rfl, rfl, rfl, rfl⟩

/-- C5.  Lexing the string literal "sum=${a+b} end" produces exactly
STRING_START, STRING_TEXT "sum=", STRING_INTERP_START, STRING_INTERP_EXPR
"a+b" (raw text, not re-lexed), STRING_INTERP_END, STRING_TEXT " end",
STRING_END, in that order. -/
theorem C5_string_interpolation_roundtrip :
    nextToken (initLexer "\"sum=$\x7ba+b\x7d end\"") =
      .ok ([⟨"STRING_START", "\"", 1, 1⟩,
            ⟨"STRING_TEXT", "sum=", 1, 2⟩,
            ⟨"STRING_INTERP_START", "$\x7b", 1, 7⟩,
            ⟨"STRING_INTERP_EXPR", "a+b", 1, 8⟩,
            ⟨"STRING_INTERP_END", "\x7d", 1, 11⟩,
            ⟨"STRING_TEXT", " end", 1, 12⟩,
            ⟨"STRING_END", "\"", 1, 16⟩],
           ⟨"\"sum=$\x7ba+b\x7d end\"".toList, 16, 1, 17⟩) := rfl

/-- C6.  Numeric literal scanning: a binary or hexadecimal literal fails
exactly when its digit/separator group contains no real digit; on success
the token text is the exact source substring consumed; the five dialect
examples classify as claimed and a bare 0b is a fatal failure. -/
theorem C6_numeric_literal_scanning :
    (∀ st : LexSt, chAtual st = '0' → (chProximo st).toLower = 'b' →
      (ehErro (reconheceLiteraisNumericos st) = true ↔
        temDigito ehBin (st.source.drop (st.pos + 2)) = false)) ∧
    (∀ st : LexSt, chAtual st = '0' → (chProximo st).toLower = 'x' →
      (ehErro (reconheceLiteraisNumericos st) = true ↔
        temDigito ehHex (st.source.drop (st.pos + 2)) = false)) ∧
    (∀ st tok st2, reconheceLiteraisNumericos st = .ok (tok, st2) →
      tok.lexema = sliceStr st.source st.pos st2.pos) ∧
    nextToken (initLexer "0b1010_0110") =
      .ok ([⟨"INT_LITERAL", "0b1010_0110", 1, 1⟩], ⟨"0b1010_0110".toList, 11, 1, 12⟩) ∧
    nextToken (initLexer "0xDEAD_BEEF") =
      .ok ([⟨"INT_LITERAL", "0xDEAD_BEEF", 1, 1⟩], ⟨"0xDEAD_BEEF".toList, 11, 1, 12⟩) ∧
    nextToken (initLexer "123UL") =
      .ok ([⟨"INT_LITERAL", "123UL", 1, 1⟩], ⟨"123UL".toList, 5, 1, 6⟩) ∧
    nextToken (initLexer "3.14f") =
      .ok ([⟨"FLOAT_LITERAL", "3.14f", 1, 1⟩], ⟨"3.14f".toList, 5, 1, 6⟩) ∧
    nextToken (initLexer "1.0e-10") =
      .ok ([⟨"FLOAT_LITERAL", "1.0e-10", 1, 1⟩], ⟨"1.0e-10".toList, 7, 1, 8⟩) ∧
    nextToken (initLexer "0b") =
      .error "erro lexico: literal binario sem digitos na linha 1, coluna 1" := by
  refine ⟨?_, ?_, ?_, rfl, rfl, rfl, rfl, rfl, rfl⟩
  · intro st h0 hb
    have hsrc : (avancar (avancar st)).source = st.source := by
      rw [avancar_source, avancar_source]
    have hpos : (avancar (avancar st)).pos = st.pos + 2 := by
      rw [avancar_pos, avancar_pos]
    have hfound : (loopDigits ehBin (st.source.length + 1) false (avancar (avancar st))).1
        = temDigito ehBin (st.source.drop (st.pos + 2)) := by
      rw [loopDigits_found ehBin (by decide) _ _ _ (by rw [hsrc, hpos]; omega)]
      rw [hsrc, hpos, Bool.false_or]
    unfold reconheceLiteraisNumericos
    simp only []
    rw [if_pos ⟨h0, hb⟩, hfound]
    cases htd : temDigito ehBin (st.source.drop (st.pos + 2)) <;> simp [ehErro]
  · intro st h0 hx
    have hsrc : (avancar (avancar st)).source = st.source := by
      rw [avancar_source, avancar_source]
    have hpos : (avancar (avancar st)).pos = st.pos + 2 := by
      rw [avancar_pos, avancar_pos]
    have hfound : (loopDigits ehHex (st.source.length + 1) false (avancar (avancar st))).1
        = temDigito ehHex (st.source.drop (st.pos + 2)) := by
      rw [loopDigits_found ehHex (by decide) _ _ _ (by rw [hsrc, hpos]; omega)]
      rw [hsrc, hpos, Bool.false_or]
    unfold reconheceLiteraisNumericos
    simp only []
    rw [if_neg (by rw [hx]; rintro ⟨-, hc⟩; exact absurd hc (by decide)),
       if_pos ⟨h0, hx⟩, hfound]
    cases htd : temDigito ehHex (st.source.drop (st.pos + 2)) <;> simp [ehErro]
  · intro st tok st2 h
    unfold reconheceLiteraisNumericos at h
    simp only [] at h
    split at h
    · simp at h
    · simp only [Except.ok.injEq, Prod.mk.injEq] at h
      obtain ⟨h1, h2⟩ := h
      subst h2
      rw [← h1]

/-- Witness for C6 at concrete inputs: the binary and hexadecimal failure
characterizations at 0b_ and 0x_ (all-separator digit groups) and the
exact-substring property at the accepted literal 7. -/
theorem C6_numeric_literal_scanning_witness :
    (ehErro (reconheceLiteraisNumericos (initLexer "0b_")) = true ↔
      temDigito ehBin ((initLexer "0b_").source.drop ((initLexer "0b_").pos + 2)) = false) ∧
    (ehErro (reconheceLiteraisNumericos (initLexer "0x_")) = true ↔
      temDigito ehHex ((initLexer "0x_").source.drop ((initLexer "0x_").pos + 2)) = false) ∧
    Token.lexema ⟨"INT_LITERAL", "7", 1, 1⟩ = sliceStr "7".toList 0 1 :=
  ⟨C6_numeric_literal_scanning.1 (initLexer "0b_") (by decide) (by decide),
   C6_numeric_literal_scanning.2.1 (initLexer "0x_") (by decide) (by decide),
   C6_numeric_literal_scanning.2.2.1 (initLexer "7") ⟨"INT_LITERAL", "7", 1, 1⟩
     ⟨"7".toList, 1, 1, 2⟩ rfl⟩

/-- C9.  Once the cursor is at or past the end of the input, nextToken
returns an EOF token at the final line/column and leaves the cursor state
unchanged, so repeated calls are idempotent. -/
theorem C9_lexer_eof_idempotent (st : LexSt) (h : st.source.length ≤ st.pos) :
    nextToken st = .ok ([⟨"EOF", "", st.linha, st.coluna⟩], st) := by
  have hnul : chAtual st = '\x00' := chAtual_nul h
  have hesp : pularEspaco st = st := by
    unfold pularEspaco
    simp +decide [pularEspacoLoop, hnul]
  unfold nextToken
  rw [proximoToken.eq_2]
  rw [if_neg (by rintro ⟨-, hc, -⟩; rw [hnul] at hc; exact absurd hc (by decide))]
  show (if chAtual (pularEspaco st) = '\x00' then _ else _) = _
  rw [hesp, if_pos hnul]

/-- Witness for C9: a cursor past the end of the two-character source "ab". -/
theorem C9_lexer_eof_idempotent_witness :
    "ab".toList.length ≤ 5 ∧
    nextToken ⟨"ab".toList, 5, 3, 7⟩ = .ok ([⟨"EOF", "", 3, 7⟩], ⟨"ab".toList, 5, 3, 7⟩) :=
  ⟨by decide, C9_lexer_eof_idempotent ⟨"ab".toList, 5, 3, 7⟩ (by decide)⟩

/-- C10.  For every accepted character literal the token text is exactly
the last three characters consumed (source[pos-3:pos] at the final
cursor); hence a plain literal keeps both quotes while an escaped literal
drops the opening quote and keeps backslash, escaped character and
closing quote. -/
theorem C10_char_literal_token_text :
    (∀ st tok st2, reconheceCharLiteral st = .ok (tok, st2) →
      tok.lexema = sliceStr st.source (st2.pos - 3) st2.pos) ∧
    nextToken (initLexer "'a'") =
      .ok ([⟨"CHAR_LITERAL", "'a'", 1, 1⟩], ⟨"'a'".toList, 3, 1, 4⟩) ∧
    nextToken (initLexer "'\\n'") =
      .ok ([⟨"CHAR_LITERAL", "\\n'", 1, 1⟩], ⟨"'\\n'".toList, 4, 1, 5⟩) := by
  refine ⟨?_, rfl, rfl⟩
  intro st tok st2 h
  unfold reconheceCharLiteral at h
  simp only [] at h
  split at h
  · simp at h
  · split at h
    · simp at h
    · split at h
      · simp at h
      · simp only [Except.ok.injEq, Prod.mk.injEq] at h
        obtain ⟨h1, h2⟩ := h
        subst h2
        rw [← h1]

/-- Witness for C10: the accepted plain literal 'a' keeps both quotes. -/
theorem C10_char_literal_token_text_witness :
    Token.lexema ⟨"CHAR_LITERAL", "'a'", 1, 1⟩ = sliceStr "'a'".toList 0 3 :=
  C10_char_literal_token_text.1 (initLexer "'a'") ⟨"CHAR_LITERAL", "'a'", 1, 1⟩
    ⟨"'a'".toList, 3, 1, 4⟩ rfl

end KLexer

namespace KParser

/-- Token consumed by the parser of parser_kotlin.py.  The parser reads
tipo, lexema, linha, coluna and (for literals and string text) valor.
The valor field is modelled from the spec: the TokenStream feeding this
parser is not part of src/, and parse_primary stores token.valor as the
literal value of the AST node. -/
structure PTok where
  tipo : String
  lexema : String
  linha : Nat
  coluna : Nat
  valor : String
deriving Repr, DecidableEq

/-- Modelled from the spec: the lexer's token stream keeps returning an
EOF token once the input is exhausted (spec 4.1, contract of nextToken). -/
def eofTok : PTok := ⟨"EOF", "", 0, 0, ""⟩

/-- Modelled from the spec: one next() call of the underlying TokenStream
(absent from src/) over its remaining token list. -/
def tsNext : List PTok → PTok × List PTok
  | [] => (eofTok, [])
  | t :: r => (t, r)

/-- TokenStreamWrapper state: tokens already read but not yet consumed,
plus the remaining underlying stream. -/
structure TSW where
  buffer : List PTok
  ts : List PTok
deriving Repr, DecidableEq

/-- TokenStreamWrapper._fill: read from the stream until the buffer holds
at least n+1 tokens. -/
def fill (n : Nat) (w : TSW) : TSW :=
  if w.buffer.length ≤ n then
    let r := tsNext w.ts
    fill n { buffer := w.buffer ++ [r.1], ts := r.2 }
  else w
termination_by n + 1 - w.buffer.length
decreasing_by simp; omega

/-- TokenStreamWrapper.peek: the token at lookahead n, without consuming. -/
def peekW (w : TSW) (n : Nat) : PTok × TSW :=
  let w1 := fill n w
  (w1.buffer.getD n eofTok, w1)

/-- TokenStreamWrapper.next: consume one token, preferring the buffer. -/
def nextW (w : TSW) : PTok × TSW :=
  match w.buffer with
  | t :: rest => (t, { buffer := rest, ts := w.ts })
  | [] =>
    let r := tsNext w.ts
    (r.1, { buffer := [], ts := r.2 })

/-- The logical token sequence still ahead of the parser: buffered tokens
followed by the unread part of the stream. -/
def streamOf (w : TSW) : List PTok := w.buffer ++ w.ts

lemma fill_spec : ∀ (k n : Nat) (w : TSW), n + 1 - w.buffer.length ≤ k →
    streamOf (fill n w) = streamOf w ++ List.replicate (n + 1 - (streamOf w).length) eofTok ∧
    n < (fill n w).buffer.length := by
  intro k
  induction k with
  | zero =>
    intro n w h
    rw [fill]
    rw [if_neg (by omega)]
    constructor
    · have : n + 1 - (streamOf w).length = 0 := by
        simp [streamOf]; omega
      rw [this]
      simp
    · omega
  | succ k ih =>
    intro n w h
    rw [fill]
    by_cases hb : w.buffer.length ≤ n
    · rw [if_pos hb]
      cases hts : w.ts with
      | nil =>
        have hr := ih n { buffer := w.buffer ++ [eofTok], ts := [] }
          (by simp; omega)
        simp [hts, tsNext]
        refine ⟨?_, hr.2⟩
        rw [hr.1]
        simp [streamOf, hts]
        rw [show n + 1 - w.buffer.length = (n - w.buffer.length) + 1 from by omega]
        exact (List.replicate_succ _ _).symm
      | cons t r =>
        have hr := ih n { buffer := w.buffer ++ [t], ts := r } (by simp; omega)
        simp [hts, tsNext]
        refine ⟨?_, hr.2⟩
        rw [hr.1]
        have hs : streamOf { buffer := w.buffer ++ [t], ts := r } = streamOf w := by
          simp [streamOf, hts]
        rw [hs]
    · rw [if_neg hb]
      constructor
      · have : n + 1 - (streamOf w).length = 0 := by
          simp [streamOf]; omega
        rw [this]
        simp
      · omega

lemma fill_ok (n : Nat) (w : TSW) :
    streamOf (fill n w) = streamOf w ++ List.replicate (n + 1 - (streamOf w).length) eofTok ∧
    n < (fill n w).buffer.length :=
  fill_spec (n + 1) n w (by omega)

lemma getD_append_replicate_self (l : List PTok) (n : Nat) :
    (l ++ List.replicate (n + 1 - l.length) eofTok).getD n eofTok = l.getD n eofTok := by
  by_cases h : n < l.length
  · rw [List.getD_append _ _ _ _ h]
  · rw [List.getD_eq_default _ _ (le_of_not_lt h)]
    by_cases h2 : n < (l ++ List.replicate (n + 1 - l.length) eofTok).length
    · rw [List.getD_eq_getElem _ _ h2]
      rw [List.getElem_append_right (le_of_not_lt h)]
      exact List.getElem_replicate _ _
    · rw [List.getD_eq_default _ _ (le_of_not_lt h2)]

/-- C8.  Lookahead-buffer invariants of TokenStreamWrapper: peek(n)
returns the n-th token of the logical stream (extending it only with EOF
padding, never discarding or reordering); immediately repeating peek(n)
returns the identical token and leaves the wrapper unchanged; next()
returns the head of the logical stream and removes exactly that one
token; next() after peek(0) returns exactly the token peek(0) returned. -/
theorem C8_lookahead_buffer_invariants (w : TSW) (n : Nat) :
    (peekW w n).1 = (streamOf w).getD n eofTok ∧
    streamOf (peekW w n).2 = streamOf w ++ List.replicate (n + 1 - (streamOf w).length) eofTok ∧
    peekW (peekW w n).2 n = ((peekW w n).1, (peekW w n).2) ∧
    (nextW w).1 = (streamOf w).headD eofTok ∧
    streamOf (nextW w).2 = (streamOf w).tail ∧
    (nextW (peekW w 0).2).1 = (peekW w 0).1 := by
  obtain ⟨hstream, hlen⟩ := fill_ok n w
  have hfix : fill n (fill n w) = fill n w := by
    rw [fill, if_neg (by omega)]
  have hval : (peekW w n).1 = (streamOf w).getD n eofTok := by
    show (fill n w).buffer.getD n eofTok = _
    rw [← getD_append_replicate_self (streamOf w) n, ← hstream]
    unfold streamOf
    rw [List.getD_append _ _ _ _ hlen]
  refine ⟨hval, hstream, ?_, ?_, ?_, ?_⟩
  · show peekW (fill n w) n = _
    unfold peekW
    simp only [hfix]
  · cases hb : w.buffer with
    | nil => cases hts : w.ts <;> simp [nextW, streamOf, tsNext, hb, hts]
    | cons t rest => simp [nextW, streamOf, hb]
  · cases hb : w.buffer with
    | nil => cases hts : w.ts <;> simp [nextW, streamOf, tsNext, hb, hts]
    | cons t rest => simp [nextW, streamOf, hb]
  · obtain ⟨hs0, hl0⟩ := fill_ok 0 w
    show (nextW (fill 0 w)).1 = (fill 0 w).buffer.getD 0 eofTok
    cases hb : (fill 0 w).buffer with
    | nil => rw [hb] at hl0; simp at hl0
    | cons t rest => simp [nextW, hb]

/-!
The parser itself is embedded over the flattened logical token stream
(streamOf of the wrapper): by C8_lookahead_buffer_invariants, peek(n) is
the n-th stream element with EOF as default and next() takes the head and
keeps the tail, so a parser state is the remaining token list plus the
accumulated diagnostics.
-/

/-- Parser session state: remaining tokens and collected error messages. -/
structure PState where
  toks : List PTok
  errors : List String
deriving Repr, DecidableEq

/-- Parser.peek(n). -/
def peekN (s : PState) (n : Nat) : PTok := s.toks.getD n eofTok

/-- Parser.peek() with the default lookahead 0. -/
def peek0 (s : PState) : PTok := peekN s 0

/-- Parser.next(). -/
def nextT (s : PState) : PTok × PState :=
  (s.toks.headD eofTok, { s with toks := s.toks.tail })

/-- Parser._error_at_token: append one diagnostic (the print side effect
is dropped). -/
def errorAtToken (s : PState) (token : PTok) (mensagem : String) : PState :=
  { s with errors := s.errors ++
      [s!"Erro sintático na linha {token.linha}, coluna {token.coluna}: {mensagem} (token=\x27{token.lexema}\x27)"] }

/-- Parser._panic_sync_tokens. -/
def PANIC_SYNC : List String := ["SEMICOLON", "RBRACE", "EOF"]

/-- Parser._panic_recover on the token list: discard tokens until the
current token's kind is in the synchronization set; consume that token
too unless it is EOF. -/
def panicRecoverToks : List PTok → List PTok
  | [] => []
  | t :: ts =>
    if PANIC_SYNC.contains t.tipo then
      if t.tipo ≠ "EOF" then ts else t :: ts
    else panicRecoverToks ts

/-- Parser._panic_recover (errors are untouched). -/
def panicRecover (s : PState) : PState := { s with toks := panicRecoverToks s.toks }

/-- Parser.accept. -/
def accept (tipo : String) (s : PState) : Bool × PState :=
  if (peek0 s).tipo = tipo then (true, (nextT s).2) else (false, s)

/-- Parser.expect: consume the expected token or report a diagnostic and
panic-recover. -/
def expect (tipo : String) (mensagem : Option String) (s : PState) : Option PTok × PState :=
  let t := peek0 s
  if t.tipo = tipo then
    let r := nextT s
    (some r.1, r.2)
  else
    let msg := mensagem.getD s!"Esperado token {tipo}, encontrado {t.tipo} (\x27{t.lexema}\x27)"
    (none, panicRecover (errorAtToken s t msg))

/-- What the C1 claim, amended, says panic recovery computes: drop until
the synchronization set, then consume the sync token unless it is EOF. -/
def panicRecoverAmendedSpec (toks : List PTok) : List PTok :=
  match toks.dropWhile (fun t => !(PANIC_SYNC.contains t.tipo)) with
  | [] => []
  | t :: rest => if t.tipo = "EOF" then t :: rest else rest

/-- C1 counterexample.  The claim says the parser "leaves RBRACE ...
unconsumed", i.e. recovery on a stream whose current token is RBRACE
would return that stream unchanged; the code consumes the RBRACE. -/
theorem C1_panic_rbrace_counterexample :
    panicRecoverToks [⟨"RBRACE", "\x7d", 1, 1, ""⟩] ≠ [⟨"RBRACE", "\x7d", 1, 1, ""⟩] := by
  decide

/-- C1 amended.  Panic recovery discards tokens until the current token's
kind is in {SEMICOLON, RBRACE, EOF} and then consumes the synchronization
token unless it is EOF: both SEMICOLON and RBRACE are consumed, only EOF
is left unconsumed.  Stated for every token stream (the parser state's
diagnostics are untouched by recovery). -/
theorem C1_panic_mode_recovery :
    (∀ toks, panicRecoverToks toks = panicRecoverAmendedSpec toks) ∧
    (∀ s : PState, (panicRecover s).errors = s.errors) := by
  constructor
  · intro toks
    induction toks with
    | nil => rfl
    | cons t ts ih =>
      by_cases h : PANIC_SYNC.contains t.tipo
      · have hm : t.tipo ∈ PANIC_SYNC := by simpa using h
        by_cases he : t.tipo = "EOF" <;>
          simp +decide [panicRecoverToks, panicRecoverAmendedSpec, List.dropWhile_cons, h, hm, he]
      · simp only [panicRecoverToks, panicRecoverAmendedSpec, List.dropWhile_cons, h,
          Bool.not_false, if_false]
        rw [if_neg (by simp [h]), ih]
        rfl
  · intro s
    rfl

/-- Function parameter record ({"name": ..., "type": ...}). -/
structure FnParam where
  name : String
  type : Option String
deriving Repr, DecidableEq

/-- One part of a parsed string literal (parse_string_literal). -/
inductive SPart where
  | text (value : String)
  | interpId (name : String)
  | interpExpr (exprText : String)
  | unknown (token : String)
deriving Repr, DecidableEq

/-- AST node dictionaries of parser_kotlin.py as a closed sum.  Field
order follows the Python dict construction; several node names collide
with Lean keywords, hence the shortened constructor names. -/
inductive Node where
  | kotlinFile (pkg : Option Node) (imports : List Node) (declarations : List Node)
  | pkgDecl (name : String)
  | impDecl (path : String)
  | clsDecl (name : String) (modifiers : List String) (body : Option (List Node))
  | objDecl (name : Option String) (modifiers : List String) (members : List Node)
  | funDecl (name : String) (modifiers : List String) (params : List FnParam)
      (ret : Option String) (body : Option Node)
  | destructuring (kind : String) (parts : List String) (value : Option Node)
      (modifiers : List String)
  | property (kind : String) (name : String) (varType : Option String)
      (value : Option Node) (modifiers : List String)
  | block (statements : List Node)
  | ifStmt (cond : Node) (thenN : Node) (elseN : Option Node)
  | forStmt (varName : Option String) (range : Option Node) (body : Node)
  | exprStmt (expr : Node)
  | binary (op : String) (left : Node) (right : Node)
  | unaryN (op : String) (operand : Node)
  | postfixOp (op : String) (operand : Node)
  | literal (kind : String) (value : String)
  | stringLit (parts : List SPart)
  | ident (name : String)
  | call (callee : Node) (args : List Node)
  | member (target : Node) (op : String) (memberName : String)
  | errorNode (token : String)
deriving Repr

/-- Contract of one parsing step: the remaining tokens are a suffix of
the input tokens, and when the input begins with a real (non-EOF) token
the step strictly consumes. -/
def StepOk (s s2 : PState) : Prop :=
  s2.toks <:+ s.toks ∧
  (∀ t ts, s.toks = t :: ts → t.tipo ≠ "EOF" → s2.toks.length < s.toks.length)

/-- Result of a main parser rule, certified by StepOk. -/
abbrev PRes (α : Type) (s : PState) := { p : α × PState // StepOk s p.2 }

/-- Result of a parser loop, certified only by the suffix property. -/
abbrev PResW (α : Type) (s : PState) := { p : α × PState // p.2.toks <:+ s.toks }

lemma StepOk.comp {s s1 s2 : PState} (h1 : StepOk s s1) (h2 : s2.toks <:+ s1.toks) :
    StepOk s s2 :=
  ⟨h2.trans h1.1, fun t ts he hr => lt_of_le_of_lt h2.length_le (h1.2 t ts he hr)⟩

lemma stepOk_of_lt {s s2 : PState} (hsfx : s2.toks <:+ s.toks)
    (hlt : s2.toks.length < s.toks.length) : StepOk s s2 :=
  ⟨hsfx, fun _ _ _ _ => hlt⟩

lemma nextT_toks (s : PState) : (nextT s).2.toks = s.toks.tail := rfl

lemma nextT_errors (s : PState) : (nextT s).2.errors = s.errors := rfl

lemma nextT_stepOk (s : PState) : StepOk s (nextT s).2 := by
  constructor
  · rw [nextT_toks]; exact List.tail_suffix _
  · intro t ts he _
    rw [nextT_toks, he]
    simp

lemma errorAtToken_toks (s : PState) (t : PTok) (m : String) :
    (errorAtToken s t m).toks = s.toks := rfl

lemma panicToks_suffix (l : List PTok) : panicRecoverToks l <:+ l := by
  induction l with
  | nil => exact List.suffix_rfl
  | cons t ts ih =>
    unfold panicRecoverToks
    by_cases h : PANIC_SYNC.contains t.tipo
    · rw [if_pos h]
      by_cases he : t.tipo = "EOF"
      · rw [if_neg (by simp [he])]
      · rw [if_pos he]
        exact (List.suffix_cons t ts)
    · rw [if_neg h]
      exact ih.trans (List.suffix_cons t ts)

lemma panicToks_lt {t : PTok} {ts : List PTok} (h : t.tipo ≠ "EOF") :
    (panicRecoverToks (t :: ts)).length < (t :: ts).length := by
  unfold panicRecoverToks
  by_cases hc : PANIC_SYNC.contains t.tipo
  · rw [if_pos hc, if_pos h]
    simp
  · rw [if_neg hc]
    have := (panicToks_suffix ts).length_le
    simp
    omega

lemma panicRecover_stepOk (s : PState) : StepOk s (panicRecover s) := by
  constructor
  · exact panicToks_suffix s.toks
  · intro t ts he hr
    show (panicRecoverToks s.toks).length < _
    rw [he]
    exact panicToks_lt hr

lemma panicRecover_errors (s : PState) : (panicRecover s).errors = s.errors := rfl

lemma peek0_cons {s : PState} {t : PTok} {ts : List PTok} (h : s.toks = t :: ts) :
    peek0 s = t := by
  simp [peek0, peekN, h]

lemma peek0_nil {s : PState} (h : s.toks = []) : peek0 s = eofTok := by
  simp [peek0, peekN, h]

lemma toks_cons_of_peek0 {s : PState} (h : (peek0 s).tipo ≠ "EOF") :
    s.toks = peek0 s :: s.toks.tail := by
  cases hc : s.toks with
  | nil => exact absurd (by rw [peek0_nil hc]; rfl) h
  | cons t ts => rw [peek0_cons hc]; rfl

lemma expect_stepOk (tipo : String) (m : Option String) (s : PState) :
    StepOk s (expect tipo m s).2 := by
  unfold expect
  by_cases h : (peek0 s).tipo = tipo
  · rw [if_pos h]
    exact nextT_stepOk s
  · rw [if_neg h]
    constructor
    · show (panicRecoverToks s.toks) <:+ _
      exact panicToks_suffix s.toks
    · intro t ts he hr
      show (panicRecoverToks s.toks).length < _
      rw [he]
      exact panicToks_lt hr

lemma accept_suffix (tipo : String) (s : PState) :
    (accept tipo s).2.toks <:+ s.toks := by
  unfold accept
  by_cases h : (peek0 s).tipo = tipo
  · rw [if_pos h]
    exact List.tail_suffix _
  · rw [if_neg h]

lemma accept_stepOk_of_true (tipo : String) (s : PState)
    (ht : tipo ≠ "EOF") (h : (accept tipo s).1 = true) :
    (accept tipo s).2.toks.length < s.toks.length := by
  unfold accept at h ⊢
  by_cases hp : (peek0 s).tipo = tipo
  · rw [if_pos hp]
    have hne : (peek0 s).tipo ≠ "EOF" := by rw [hp]; exact ht
    rw [nextT_toks, toks_cons_of_peek0 hne]
    simp
  · rw [if_neg hp] at h
    simp at h

/-- Loop of Parser.parse_string_literal: collect string parts until
STRING_END or EOF.  Every iteration consumes the token it inspects. -/
def parseStringPartsLoop (s : PState) : PResW (List SPart) s :=
  if hstop : (peek0 s).tipo = "STRING_END" ∨ (peek0 s).tipo = "EOF" then
    ⟨([], s), List.suffix_rfl⟩
  else
    let r := nextT s
    let t := r.1
    let s1 := r.2
    have hs1 : s1.toks <:+ s.toks := List.tail_suffix _
    have hlt : s1.toks.length < s.toks.length := by
      have hne : (peek0 s).tipo ≠ "EOF" := fun hc => hstop (Or.inr hc)
      show s.toks.tail.length < _
      rw [toks_cons_of_peek0 hne]
      simp
    if t.tipo = "STRING_TEXT" then
      let rest := parseStringPartsLoop s1
      ⟨(.text t.valor :: rest.val.1, rest.val.2), rest.2.trans hs1⟩
    else if t.tipo = "STRING_INTERP_ID" then
      let rest := parseStringPartsLoop s1
      ⟨(.interpId t.lexema :: rest.val.1, rest.val.2), rest.2.trans hs1⟩
    else if t.tipo = "STRING_INTERP_START" then
      let pr : List SPart × PState :=
        if (peek0 s1).tipo = "STRING_INTERP_EXPR" then
          let r2 := nextT s1
          ([.interpExpr r2.1.lexema], r2.2)
        else ([], s1)
      have hpr : pr.2.toks <:+ s1.toks := by
        unfold pr
        split
        · exact List.tail_suffix _
        · exact List.suffix_rfl
      let s3 :=
        if (peek0 pr.2).tipo = "STRING_INTERP_END" then (nextT pr.2).2
        else panicRecover (errorAtToken pr.2 (peek0 pr.2) "Fim de interpolação esperado (\x27\x7d\x27)")
      have hs3 : s3.toks <:+ pr.2.toks := by
        unfold s3
        split
        · exact List.tail_suffix _
        · exact panicToks_suffix _
      let rest := parseStringPartsLoop s3
      ⟨(pr.1 ++ rest.val.1, rest.val.2), rest.2.trans ((hs3.trans hpr).trans hs1)⟩
    else
      let rest := parseStringPartsLoop s1
      ⟨(.unknown t.lexema :: rest.val.1, rest.val.2), rest.2.trans hs1⟩
termination_by s.toks.length
decreasing_by
  · exact hlt
  · exact lt_of_le_of_lt (hs3.trans hpr).length_le hlt

/-- Parser.parse_string_literal. -/
def parseStringLiteral (s : PState) : PRes Node s :=
  let e1 := expect "STRING_START" none s
  let parts := parseStringPartsLoop e1.2
  let e2 := expect "STRING_END" (some "Fim de string esperado") parts.val.2
  ⟨(.stringLit parts.val.1, e2.2),
    (expect_stepOk "STRING_START" none s).comp
      (((expect_stepOk _ _ parts.val.2).1).trans parts.2)⟩

lemma peek_lt {s : PState} (h : (peek0 s).tipo ≠ "EOF") :
    (nextT s).2.toks.length < s.toks.length := by
  rw [nextT_toks]
  conv_rhs => rw [toks_cons_of_peek0 h]
  simp

lemma ne_eof_of_eq {s : PState} {x : String} (h : (peek0 s).tipo = x) (hx : x ≠ "EOF") :
    (peek0 s).tipo ≠ "EOF" := by rw [h]; exact hx

/-!
The expression engine (Parser.parse_expression down to
parse_identifier_or_call_or_member) is one mutual recursion.  Termination:
the measure is s.toks.length * 64 + rank, where rank orders the
precedence chain (a rule calls the next-higher level at the same token
position but a lower rank, and every loop iteration and every re-entry
into parse_expression first consumes at least one token).
-/

mutual

/-- Parser.parse_expression. -/
def parseExpression (s : PState) : PRes Node s :=
  parseElvis s
termination_by s.toks.length * 64 + 30
decreasing_by omega

/-- Parser.parse_elvis. -/
def parseElvis (s : PState) : PRes Node s :=
  match parseOr s with
  | ⟨(node, s1), pf1⟩ =>
    match parseElvisLoop node s1 with
    | ⟨p, pf2⟩ => ⟨p, pf1.comp pf2⟩
termination_by s.toks.length * 64 + 29
decreasing_by
  · omega
  · have h9 : s1.toks.length ≤ s.toks.length := pf1.1.length_le
    omega

/-- The while-loop of Parser.parse_elvis. -/
def parseElvisLoop (node : Node) (s : PState) : PResW Node s :=
  if h : (peek0 s).tipo = "OP_ELVIS" then
    have hlt1 : (nextT s).2.toks.length < s.toks.length :=
      peek_lt (ne_eof_of_eq h (by decide))
    match parseOr (nextT s).2 with
    | ⟨(right, s2), pf1⟩ =>
      match parseElvisLoop (.binary (nextT s).1.lexema node right) s2 with
      | ⟨p, pf2⟩ => ⟨p, pf2.trans (pf1.1.trans (List.tail_suffix _))⟩
  else ⟨(node, s), List.suffix_rfl⟩
termination_by s.toks.length * 64 + 28
decreasing_by
  · omega
  · have h9 : s2.toks.length ≤ (nextT s).2.toks.length := pf1.1.length_le
    omega

/-- Parser.parse_or. -/
def parseOr (s : PState) : PRes Node s :=
  match parseAnd s with
  | ⟨(node, s1), pf1⟩ =>
    match parseOrLoop node s1 with
    | ⟨p, pf2⟩ => ⟨p, pf1.comp pf2⟩
termination_by s.toks.length * 64 + 27
decreasing_by
  · omega
  · have h9 : s1.toks.length ≤ s.toks.length := pf1.1.length_le
    omega

/-- The while-loop of Parser.parse_or. -/
def parseOrLoop (node : Node) (s : PState) : PResW Node s :=
  if h : (peek0 s).tipo = "OP_OR" then
    have hlt1 : (nextT s).2.toks.length < s.toks.length :=
      peek_lt (ne_eof_of_eq h (by decide))
    match parseAnd (nextT s).2 with
    | ⟨(right, s2), pf1⟩ =>
      match parseOrLoop (.binary (nextT s).1.lexema node right) s2 with
      | ⟨p, pf2⟩ => ⟨p, pf2.trans (pf1.1.trans (List.tail_suffix _))⟩
  else ⟨(node, s), List.suffix_rfl⟩
termination_by s.toks.length * 64 + 26
decreasing_by
  · omega
  · have h9 : s2.toks.length ≤ (nextT s).2.toks.length := pf1.1.length_le
    omega

/-- Parser.parse_and. -/
def parseAnd (s : PState) : PRes Node s :=
  match parseEquality s with
  | ⟨(node, s1), pf1⟩ =>
    match parseAndLoop node s1 with
    | ⟨p, pf2⟩ => ⟨p, pf1.comp pf2⟩
termination_by s.toks.length * 64 + 25
decreasing_by
  · omega
  · have h9 : s1.toks.length ≤ s.toks.length := pf1.1.length_le
    omega

/-- The while-loop of Parser.parse_and. -/
def parseAndLoop (node : Node) (s : PState) : PResW Node s :=
  if h : (peek0 s).tipo = "OP_AND" then
    have hlt1 : (nextT s).2.toks.length < s.toks.length :=
      peek_lt (ne_eof_of_eq h (by decide))
    match parseEquality (nextT s).2 with
    | ⟨(right, s2), pf1⟩ =>
      match parseAndLoop (.binary (nextT s).1.lexema node right) s2 with
      | ⟨p, pf2⟩ => ⟨p, pf2.trans (pf1.1.trans (List.tail_suffix _))⟩
  else ⟨(node, s), List.suffix_rfl⟩
termination_by s.toks.length * 64 + 24
decreasing_by
  · omega
  · have h9 : s2.toks.length ≤ (nextT s).2.toks.length := pf1.1.length_le
    omega

/-- Parser.parse_equality. -/
def parseEquality (s : PState) : PRes Node s :=
  match parseRelational s with
  | ⟨(node, s1), pf1⟩ =>
    match parseEqualityLoop node s1 with
    | ⟨p, pf2⟩ => ⟨p, pf1.comp pf2⟩
termination_by s.toks.length * 64 + 23
decreasing_by
  · omega
  · have h9 : s1.toks.length ≤ s.toks.length := pf1.1.length_le
    omega

/-- The while-loop of Parser.parse_equality (==, !=, ===, !==). -/
def parseEqualityLoop (node : Node) (s : PState) : PResW Node s :=
  if h : (peek0 s).tipo = "OP_NEQ" ∨ (peek0 s).tipo = "OP_EQ" ∨
      (peek0 s).tipo = "OP_EQ_STRICT" ∨ (peek0 s).tipo = "OP_NEQ_STRICT" then
    have hlt1 : (nextT s).2.toks.length < s.toks.length :=
      peek_lt (by rcases h with h|h|h|h <;> exact ne_eof_of_eq h (by decide))
    match parseRelational (nextT s).2 with
    | ⟨(right, s2), pf1⟩ =>
      match parseEqualityLoop (.binary (nextT s).1.lexema node right) s2 with
      | ⟨p, pf2⟩ => ⟨p, pf2.trans (pf1.1.trans (List.tail_suffix _))⟩
  else ⟨(node, s), List.suffix_rfl⟩
termination_by s.toks.length * 64 + 22
decreasing_by
  · omega
  · have h9 : s2.toks.length ≤ (nextT s).2.toks.length := pf1.1.length_le
    omega

/-- Parser.parse_relational. -/
def parseRelational (s : PState) : PRes Node s :=
  match parseAdditive s with
  | ⟨(node, s1), pf1⟩ =>
    match parseRelationalLoop node s1 with
    | ⟨p, pf2⟩ => ⟨p, pf1.comp pf2⟩
termination_by s.toks.length * 64 + 21
decreasing_by
  · omega
  · have h9 : s1.toks.length ≤ s.toks.length := pf1.1.length_le
    omega

/-- The while-loop of Parser.parse_relational: the keyword operators in,
is, as (with the as? safe-cast fold and the defensive two-token lookahead
for a bare ! immediately before in or is) and the comparison and range
operators. -/
def parseRelationalLoop (node : Node) (s : PState) : PResW Node s :=
  if h1 : (peek0 s).tipo = "OP_NOT" ∧
      ((peekN s 1).tipo = "KW_IN" ∨ (peekN s 1).tipo = "KW_IS") then
    have hlt1 : (nextT s).2.toks.length < s.toks.length :=
      peek_lt (ne_eof_of_eq h1.1 (by decide))
    have hltB : (nextT (nextT s).2).2.toks.length < s.toks.length := by
      have h2 : (nextT (nextT s).2).2.toks.length ≤ (nextT s).2.toks.length := by
        rw [nextT_toks, List.length_tail]
        omega
      omega
    match parseAdditive (nextT (nextT s).2).2 with
    | ⟨(right, s2), pf1⟩ =>
      match parseRelationalLoop
          (.binary ("!" ++ (nextT (nextT s).2).1.lexema) node right) s2 with
      | ⟨p, pf2⟩ => ⟨p, pf2.trans (pf1.1.trans
          ((List.tail_suffix (nextT s).2.toks).trans (List.tail_suffix s.toks)))⟩
  else if h2 : (peek0 s).tipo = "KW_IN" ∨ (peek0 s).tipo = "KW_IS" ∨
      (peek0 s).tipo = "KW_AS" then
    have hlt1 : (nextT s).2.toks.length < s.toks.length :=
      peek_lt (by rcases h2 with h|h|h <;> exact ne_eof_of_eq h (by decide))
    if hq : (nextT s).1.lexema = "as" ∧ (peek0 (nextT s).2).tipo = "QUESTION" then
      have hltQ : (nextT (nextT s).2).2.toks.length < s.toks.length := by
        have h3 : (nextT (nextT s).2).2.toks.length ≤ (nextT s).2.toks.length := by
          rw [nextT_toks, List.length_tail]
          omega
        omega
      match parseAdditive (nextT (nextT s).2).2 with
      | ⟨(right, s2), pf1⟩ =>
        match parseRelationalLoop (.binary "as?" node right) s2 with
        | ⟨p, pf2⟩ => ⟨p, pf2.trans (pf1.1.trans
            ((List.tail_suffix (nextT s).2.toks).trans (List.tail_suffix s.toks)))⟩
    else
      match parseAdditive (nextT s).2 with
      | ⟨(right, s2), pf1⟩ =>
        match parseRelationalLoop (.binary (nextT s).1.lexema node right) s2 with
        | ⟨p, pf2⟩ => ⟨p, pf2.trans (pf1.1.trans (List.tail_suffix _))⟩
  else if h3 : (peek0 s).tipo = "OP_GE" ∨ (peek0 s).tipo = "OP_LE" ∨
      (peek0 s).tipo = "OP_GT" ∨ (peek0 s).tipo = "OP_LT" ∨
      (peek0 s).tipo = "OP_RANGE" ∨ (peek0 s).tipo = "OP_RANGE_UNTIL" then
    have hlt1 : (nextT s).2.toks.length < s.toks.length :=
      peek_lt (by rcases h3 with h|h|h|h|h|h <;> exact ne_eof_of_eq h (by decide))
    match parseAdditive (nextT s).2 with
    | ⟨(right, s2), pf1⟩ =>
      match parseRelationalLoop (.binary (nextT s).1.lexema node right) s2 with
      | ⟨p, pf2⟩ => ⟨p, pf2.trans (pf1.1.trans (List.tail_suffix _))⟩
  else ⟨(node, s), List.suffix_rfl⟩
termination_by s.toks.length * 64 + 20
decreasing_by
  · omega
  · have h9 : s2.toks.length ≤ (nextT (nextT s).2).2.toks.length := pf1.1.length_le
    omega
  · omega
  · have h9 : s2.toks.length ≤ (nextT (nextT s).2).2.toks.length := pf1.1.length_le
    omega
  · omega
  · have h9 : s2.toks.length ≤ (nextT s).2.toks.length := pf1.1.length_le
    omega
  · omega
  · have h9 : s2.toks.length ≤ (nextT s).2.toks.length := pf1.1.length_le
    omega

/-- Parser.parse_additive. -/
def parseAdditive (s : PState) : PRes Node s :=
  match parseMultiplicative s with
  | ⟨(node, s1), pf1⟩ =>
    match parseAdditiveLoop node s1 with
    | ⟨p, pf2⟩ => ⟨p, pf1.comp pf2⟩
termination_by s.toks.length * 64 + 19
decreasing_by
  · omega
  · have h9 : s1.toks.length ≤ s.toks.length := pf1.1.length_le
    omega

/-- The while-loop of Parser.parse_additive (+, -, +=, -=). -/
def parseAdditiveLoop (node : Node) (s : PState) : PResW Node s :=
  if h : (peek0 s).tipo = "OP_PLUS" ∨ (peek0 s).tipo = "OP_MINUS" ∨
      (peek0 s).tipo = "OP_PLUS_ASSIGN" ∨ (peek0 s).tipo = "OP_MINUS_ASSIGN" then
    have hlt1 : (nextT s).2.toks.length < s.toks.length :=
      peek_lt (by rcases h with h|h|h|h <;> exact ne_eof_of_eq h (by decide))
    match parseMultiplicative (nextT s).2 with
    | ⟨(right, s2), pf1⟩ =>
      match parseAdditiveLoop (.binary (nextT s).1.lexema node right) s2 with
      | ⟨p, pf2⟩ => ⟨p, pf2.trans (pf1.1.trans (List.tail_suffix _))⟩
  else ⟨(node, s), List.suffix_rfl⟩
termination_by s.toks.length * 64 + 18
decreasing_by
  · omega
  · have h9 : s2.toks.length ≤ (nextT s).2.toks.length := pf1.1.length_le
    omega

/-- Parser.parse_multiplicative. -/
def parseMultiplicative (s : PState) : PRes Node s :=
  match parseUnary s with
  | ⟨(node, s1), pf1⟩ =>
    match parseMultiplicativeLoop node s1 with
    | ⟨p, pf2⟩ => ⟨p, pf1.comp pf2⟩
termination_by s.toks.length * 64 + 17
decreasing_by
  · omega
  · have h9 : s1.toks.length ≤ s.toks.length := pf1.1.length_le
    omega

/-- The while-loop of Parser.parse_multiplicative (*, /, %). -/
def parseMultiplicativeLoop (node : Node) (s : PState) : PResW Node s :=
  if h : (peek0 s).tipo = "OP_MUL" ∨ (peek0 s).tipo = "OP_DIV" ∨
      (peek0 s).tipo = "OP_MOD" then
    have hlt1 : (nextT s).2.toks.length < s.toks.length :=
      peek_lt (by rcases h with h|h|h <;> exact ne_eof_of_eq h (by decide))
    match parseUnary (nextT s).2 with
    | ⟨(right, s2), pf1⟩ =>
      match parseMultiplicativeLoop (.binary (nextT s).1.lexema node right) s2 with
      | ⟨p, pf2⟩ => ⟨p, pf2.trans (pf1.1.trans (List.tail_suffix _))⟩
  else ⟨(node, s), List.suffix_rfl⟩
termination_by s.toks.length * 64 + 16
decreasing_by
  · omega
  · have h9 : s2.toks.length ≤ (nextT s).2.toks.length := pf1.1.length_le
    omega

/-- Parser.parse_unary: prefix ! and -, then one optional postfix
increment or decrement. -/
def parseUnary (s : PState) : PRes Node s :=
  if h : (peek0 s).tipo = "OP_NOT" ∨ (peek0 s).tipo = "OP_MINUS" then
    have hlt1 : (nextT s).2.toks.length < s.toks.length :=
      peek_lt (by rcases h with h|h <;> exact ne_eof_of_eq h (by decide))
    match parseUnary (nextT s).2 with
    | ⟨(operand, s2), pf1⟩ =>
      ⟨(.unaryN (nextT s).1.lexema operand, s2),
        stepOk_of_lt (pf1.1.trans (List.tail_suffix _))
          (lt_of_le_of_lt pf1.1.length_le hlt1)⟩
  else
    match parsePrimary s with
    | ⟨(node, s1), pf1⟩ =>
      if (peek0 s1).tipo = "OP_INC" ∨ (peek0 s1).tipo = "OP_DEC" then
        ⟨(.postfixOp (nextT s1).1.lexema node, (nextT s1).2),
          pf1.comp (show (nextT s1).2.toks <:+ s1.toks from List.tail_suffix _)⟩
      else ⟨(node, s1), pf1⟩
termination_by s.toks.length * 64 + 15
decreasing_by
  · omega
  · omega

/-- Parser.parse_primary: literals, strings, identifiers/calls/members,
parenthesized expressions; anything else becomes an error node. -/
def parsePrimary (s : PState) : PRes Node s :=
  if h1 : (peek0 s).tipo = "INT_LITERAL" ∨ (peek0 s).tipo = "FLOAT_LITERAL" ∨
      (peek0 s).tipo = "CHAR_LITERAL" then
    ⟨(.literal (nextT s).1.tipo (nextT s).1.valor, (nextT s).2), nextT_stepOk s⟩
  else if h2 : (peek0 s).tipo = "STRING_START" then
    parseStringLiteral s
  else if h3 : (peek0 s).tipo = "IDENTIFIER" ∨ (peek0 s).tipo = "Quoted_identifier" then
    parseIdentCallMember s
  else if h4 : (peek0 s).tipo = "LPAREN" then
    have hlt1 : (nextT s).2.toks.length < s.toks.length :=
      peek_lt (ne_eof_of_eq h4 (by decide))
    match parseExpression (nextT s).2 with
    | ⟨(e, s1), pf1⟩ =>
      ⟨(e, (expect "RPAREN" (some "\x27)\x27 esperado") s1).2),
        stepOk_of_lt
          ((((expect_stepOk "RPAREN" (some "\x27)\x27 esperado") s1).1).trans pf1.1).trans
            (List.tail_suffix _))
          (lt_of_le_of_lt ((expect_stepOk "RPAREN" (some "\x27)\x27 esperado") s1).1).length_le
            (lt_of_le_of_lt pf1.1.length_le hlt1))⟩
  else
    ⟨(.errorNode (nextT s).1.lexema,
        errorAtToken (nextT s).2 (nextT s).1 "Expressão primária inválida"),
      nextT_stepOk s⟩
termination_by s.toks.length * 64 + 14
decreasing_by
  · omega
  · omega

/-- Parser.parse_identifier_or_call_or_member: initial identifier, then
the chain of calls and member accesses. -/
def parseIdentCallMember (s : PState) : PRes Node s :=
  if h : (peek0 s).tipo = "IDENTIFIER" ∨ (peek0 s).tipo = "Quoted_identifier" then
    have hlt1 : (nextT s).2.toks.length < s.toks.length :=
      peek_lt (by rcases h with h|h <;> exact ne_eof_of_eq h (by decide))
    match parseChainLoop (.ident (nextT s).1.lexema) (nextT s).2 with
    | ⟨p, pf1⟩ =>
      ⟨p, stepOk_of_lt (pf1.trans (List.tail_suffix _))
        (lt_of_le_of_lt pf1.length_le hlt1)⟩
  else
    ⟨(.errorNode (nextT s).1.lexema,
        errorAtToken (nextT s).2 (nextT s).1 "Identificador esperado"),
      nextT_stepOk s⟩
termination_by s.toks.length * 64 + 13
decreasing_by
  · omega

/-- The while-loop of parse_identifier_or_call_or_member: call
parentheses and member accesses via DOT, safe call and not-null
assertion, including the tolerance that merges a redundant DOT after a
standalone !! token (the first comparison string reproduces the
ill-formed string literal of parser_kotlin.py line 701 verbatim). -/
def parseChainLoop (node : Node) (s : PState) : PResW Node s :=
  if hL : (peek0 s).tipo = "LPAREN" then
    have hlt1 : (nextT s).2.toks.length < s.toks.length :=
      peek_lt (ne_eof_of_eq hL (by decide))
    match (if hA : (peek0 (nextT s).2).tipo ≠ "RPAREN" then parseArgsLoop (nextT s).2
        else ⟨([], (nextT s).2), List.suffix_rfl⟩ : PResW (List Node) (nextT s).2) with
    | ⟨(args, s2), pfA⟩ =>
      have hlt2 : (expect "RPAREN"
          (some "\x27)\x27 esperado após argumentos de chamada") s2).2.toks.length
          < s.toks.length :=
        lt_of_le_of_lt ((expect_stepOk "RPAREN" _ s2).1).length_le
          (lt_of_le_of_lt pfA.length_le hlt1)
      match parseChainLoop (.call node args)
          (expect "RPAREN" (some "\x27)\x27 esperado após argumentos de chamada") s2).2 with
      | ⟨p, pf2⟩ =>
        ⟨p, pf2.trans
          ((((expect_stepOk "RPAREN" _ s2).1).trans pfA).trans (List.tail_suffix _))⟩
  else if hM : (peek0 s).tipo = "DOT" ∨ (peek0 s).tipo = "OP_SAFE_CALL" ∨
      (peek0 s).tipo = "OP_NOT_NULL" then
    have hlt1 : (nextT s).2.toks.length < s.toks.length :=
      peek_lt (by rcases hM with h|h|h <;> exact ne_eof_of_eq h (by decide))
    if hTol : ((nextT s).1.tipo = "OP_NOT_NULL and getattr(op_tok,\x27tipo\x27,None)" ∨
        (nextT s).1.tipo = "OP_NOT_NULL") ∧ (peek0 (nextT s).2).tipo = "DOT" then
      have hlt2 : (nextT (nextT s).2).2.toks.length < s.toks.length := by
        have h3 : (nextT (nextT s).2).2.toks.length ≤ (nextT s).2.toks.length := by
          rw [nextT_toks, List.length_tail]
          omega
        omega
      if hI : (peek0 (nextT (nextT s).2).2).tipo = "IDENTIFIER" ∨
          (peek0 (nextT (nextT s).2).2).tipo = "Quoted_identifier" then
        have hlt3 : (nextT (nextT (nextT s).2).2).2.toks.length < s.toks.length := by
          have h4 : (nextT (nextT (nextT s).2).2).2.toks.length ≤
              (nextT (nextT s).2).2.toks.length := by
            rw [nextT_toks, List.length_tail]
            omega
          omega
        match parseChainLoop
            (.member node (nextT s).1.lexema (nextT (nextT (nextT s).2).2).1.lexema)
            (nextT (nextT (nextT s).2).2).2 with
        | ⟨p, pf2⟩ =>
          ⟨p, pf2.trans (((List.tail_suffix (nextT (nextT s).2).2.toks).trans
              (List.tail_suffix (nextT s).2.toks)).trans (List.tail_suffix s.toks))⟩
      else
        ⟨(node, panicRecover (errorAtToken (nextT (nextT s).2).2
            (peek0 (nextT (nextT s).2).2)
            "Nome de membro esperado após \x27.\x27 ou \x27?.\x27 etc.")),
          ((panicToks_suffix _).trans ((List.tail_suffix (nextT s).2.toks).trans
            (List.tail_suffix s.toks)) : _ <:+ s.toks)⟩
    else
      if hI : (peek0 (nextT s).2).tipo = "IDENTIFIER" ∨
          (peek0 (nextT s).2).tipo = "Quoted_identifier" then
        have hlt2 : (nextT (nextT s).2).2.toks.length < s.toks.length := by
          have h3 : (nextT (nextT s).2).2.toks.length ≤ (nextT s).2.toks.length := by
            rw [nextT_toks, List.length_tail]
            omega
          omega
        match parseChainLoop
            (.member node (nextT s).1.lexema (nextT (nextT s).2).1.lexema)
            (nextT (nextT s).2).2 with
        | ⟨p, pf2⟩ =>
          ⟨p, pf2.trans ((List.tail_suffix (nextT s).2.toks).trans
            (List.tail_suffix s.toks))⟩
      else
        ⟨(node, panicRecover (errorAtToken (nextT s).2 (peek0 (nextT s).2)
            "Nome de membro esperado após \x27.\x27 ou \x27?.\x27 etc.")),
          ((panicToks_suffix _).trans (List.tail_suffix s.toks) : _ <:+ s.toks)⟩
  else ⟨(node, s), List.suffix_rfl⟩
termination_by s.toks.length * 64 + 12
decreasing_by
  · omega
  · omega
  · omega
  · omega

/-- The argument loop of a call: comma-separated expressions. -/
def parseArgsLoop (s : PState) : PResW (List Node) s :=
  match parseExpression s with
  | ⟨(e1, s1), pf1⟩ =>
    if h : (accept "COMMA" s1).1 = true then
      have hlt : (accept "COMMA" s1).2.toks.length < s.toks.length :=
        lt_of_lt_of_le (accept_stepOk_of_true "COMMA" s1 (by decide) h) pf1.1.length_le
      match parseArgsLoop (accept "COMMA" s1).2 with
      | ⟨(rest, s2), pf2⟩ =>
        ⟨(e1 :: rest, s2), pf2.trans ((accept_suffix _ _).trans pf1.1)⟩
    else ⟨([e1], (accept "COMMA" s1).2), (accept_suffix _ _).trans pf1.1⟩
termination_by s.toks.length * 64 + 31
decreasing_by
  · omega
  · omega

end

/-- tipo.startswith("MOD_") of the Python source. -/
def ehMod (t : PTok) : Bool := "MOD_".toList.isPrefixOf t.tipo.toList

/-!
Executable mirror of the same parser functions.  The well-founded
definitions above certify termination (claim C4) but their recursors do
not reduce inside the kernel, so the concrete test-case claims are
settled against this second, fuel-indexed translation of the very same
Python functions; the fuel only bounds recursion depth (None means the
bound was hit) and every claim instantiates it large enough.
-/

mutual

/-- Parser.parse_expression (fuel-indexed executable form). -/
def parseExpressionF : Nat → PState → Option (Node × PState)
  | 0, _ => none
  | fuel + 1, s => parseElvisF fuel s

/-- Parser.parse_elvis (fuel-indexed executable form). -/
def parseElvisF : Nat → PState → Option (Node × PState)
  | 0, _ => none
  | fuel + 1, s =>
    match parseOrF fuel s with
    | none => none
    | some (node, s1) => parseElvisLoopF fuel node s1

/-- The while-loop of parse_elvis (executable form). -/
def parseElvisLoopF : Nat → Node → PState → Option (Node × PState)
  | 0, _, _ => none
  | fuel + 1, node, s =>
    if (peek0 s).tipo = "OP_ELVIS" then
      match parseOrF fuel (nextT s).2 with
      | none => none
      | some (right, s2) =>
        parseElvisLoopF fuel (.binary (nextT s).1.lexema node right) s2
    else some (node, s)

/-- Parser.parse_or (executable form). -/
def parseOrF : Nat → PState → Option (Node × PState)
  | 0, _ => none
  | fuel + 1, s =>
    match parseAndF fuel s with
    | none => none
    | some (node, s1) => parseOrLoopF fuel node s1

/-- The while-loop of parse_or (executable form). -/
def parseOrLoopF : Nat → Node → PState → Option (Node × PState)
  | 0, _, _ => none
  | fuel + 1, node, s =>
    if (peek0 s).tipo = "OP_OR" then
      match parseAndF fuel (nextT s).2 with
      | none => none
      | some (right, s2) =>
        parseOrLoopF fuel (.binary (nextT s).1.lexema node right) s2
    else some (node, s)

/-- Parser.parse_and (executable form). -/
def parseAndF : Nat → PState → Option (Node × PState)
  | 0, _ => none
  | fuel + 1, s =>
    match parseEqualityF fuel s with
    | none => none
    | some (node, s1) => parseAndLoopF fuel node s1

/-- The while-loop of parse_and (executable form). -/
def parseAndLoopF : Nat → Node → PState → Option (Node × PState)
  | 0, _, _ => none
  | fuel + 1, node, s =>
    if (peek0 s).tipo = "OP_AND" then
      match parseEqualityF fuel (nextT s).2 with
      | none => none
      | some (right, s2) =>
        parseAndLoopF fuel (.binary (nextT s).1.lexema node right) s2
    else some (node, s)

/-- Parser.parse_equality (executable form). -/
def parseEqualityF : Nat → PState → Option (Node × PState)
  | 0, _ => none
  | fuel + 1, s =>
    match parseRelationalF fuel s with
    | none => none
    | some (node, s1) => parseEqualityLoopF fuel node s1

/-- The while-loop of parse_equality (executable form). -/
def parseEqualityLoopF : Nat → Node → PState → Option (Node × PState)
  | 0, _, _ => none
  | fuel + 1, node, s =>
    if (peek0 s).tipo = "OP_NEQ" ∨ (peek0 s).tipo = "OP_EQ" ∨
        (peek0 s).tipo = "OP_EQ_STRICT" ∨ (peek0 s).tipo = "OP_NEQ_STRICT" then
      match parseRelationalF fuel (nextT s).2 with
      | none => none
      | some (right, s2) =>
        parseEqualityLoopF fuel (.binary (nextT s).1.lexema node right) s2
    else some (node, s)

/-- Parser.parse_relational (executable form). -/
def parseRelationalF : Nat → PState → Option (Node × PState)
  | 0, _ => none
  | fuel + 1, s =>
    match parseAdditiveF fuel s with
    | none => none
    | some (node, s1) => parseRelationalLoopF fuel node s1

/-- The while-loop of parse_relational (executable form). -/
def parseRelationalLoopF : Nat → Node → PState → Option (Node × PState)
  | 0, _, _ => none
  | fuel + 1, node, s =>
    if (peek0 s).tipo = "OP_NOT" ∧
        ((peekN s 1).tipo = "KW_IN" ∨ (peekN s 1).tipo = "KW_IS") then
      match parseAdditiveF fuel (nextT (nextT s).2).2 with
      | none => none
      | some (right, s2) =>
        parseRelationalLoopF fuel
          (.binary ("!" ++ (nextT (nextT s).2).1.lexema) node right) s2
    else if (peek0 s).tipo = "KW_IN" ∨ (peek0 s).tipo = "KW_IS" ∨
        (peek0 s).tipo = "KW_AS" then
      if (nextT s).1.lexema = "as" ∧ (peek0 (nextT s).2).tipo = "QUESTION" then
        match parseAdditiveF fuel (nextT (nextT s).2).2 with
        | none => none
        | some (right, s2) =>
          parseRelationalLoopF fuel (.binary "as?" node right) s2
      else
        match parseAdditiveF fuel (nextT s).2 with
        | none => none
        | some (right, s2) =>
          parseRelationalLoopF fuel (.binary (nextT s).1.lexema node right) s2
    else if (peek0 s).tipo = "OP_GE" ∨ (peek0 s).tipo = "OP_LE" ∨
        (peek0 s).tipo = "OP_GT" ∨ (peek0 s).tipo = "OP_LT" ∨
        (peek0 s).tipo = "OP_RANGE" ∨ (peek0 s).tipo = "OP_RANGE_UNTIL" then
      match parseAdditiveF fuel (nextT s).2 with
      | none => none
      | some (right, s2) =>
        parseRelationalLoopF fuel (.binary (nextT s).1.lexema node right) s2
    else some (node, s)

/-- Parser.parse_additive (executable form). -/
def parseAdditiveF : Nat → PState → Option (Node × PState)
  | 0, _ => none
  | fuel + 1, s =>
    match parseMultiplicativeF fuel s with
    | none => none
    | some (node, s1) => parseAdditiveLoopF fuel node s1

/-- The while-loop of parse_additive (executable form). -/
def parseAdditiveLoopF : Nat → Node → PState → Option (Node × PState)
  | 0, _, _ => none
  | fuel + 1, node, s =>
    if (peek0 s).tipo = "OP_PLUS" ∨ (peek0 s).tipo = "OP_MINUS" ∨
        (peek0 s).tipo = "OP_PLUS_ASSIGN" ∨ (peek0 s).tipo = "OP_MINUS_ASSIGN" then
      match parseMultiplicativeF fuel (nextT s).2 with
      | none => none
      | some (right, s2) =>
        parseAdditiveLoopF fuel (.binary (nextT s).1.lexema node right) s2
    else some (node, s)

/-- Parser.parse_multiplicative (executable form). -/
def parseMultiplicativeF : Nat → PState → Option (Node × PState)
  | 0, _ => none
  | fuel + 1, s =>
    match parseUnaryF fuel s with
    | none => none
    | some (node, s1) => parseMultiplicativeLoopF fuel node s1

/-- The while-loop of parse_multiplicative (executable form). -/
def parseMultiplicativeLoopF : Nat → Node → PState → Option (Node × PState)
  | 0, _, _ => none
  | fuel + 1, node, s =>
    if (peek0 s).tipo = "OP_MUL" ∨ (peek0 s).tipo = "OP_DIV" ∨
        (peek0 s).tipo = "OP_MOD" then
      match parseUnaryF fuel (nextT s).2 with
      | none => none
      | some (right, s2) =>
        parseMultiplicativeLoopF fuel (.binary (nextT s).1.lexema node right) s2
    else some (node, s)

/-- Parser.parse_unary (executable form). -/
def parseUnaryF : Nat → PState → Option (Node × PState)
  | 0, _ => none
  | fuel + 1, s =>
    if (peek0 s).tipo = "OP_NOT" ∨ (peek0 s).tipo = "OP_MINUS" then
      match parseUnaryF fuel (nextT s).2 with
      | none => none
      | some (operand, s2) => some (.unaryN (nextT s).1.lexema operand, s2)
    else
      match parsePrimaryF fuel s with
      | none => none
      | some (node, s1) =>
        if (peek0 s1).tipo = "OP_INC" ∨ (peek0 s1).tipo = "OP_DEC" then
          some (.postfixOp (nextT s1).1.lexema node, (nextT s1).2)
        else some (node, s1)

/-- Parser.parse_primary (executable form). -/
def parsePrimaryF : Nat → PState → Option (Node × PState)
  | 0, _ => none
  | fuel + 1, s =>
    if (peek0 s).tipo = "INT_LITERAL" ∨ (peek0 s).tipo = "FLOAT_LITERAL" ∨
        (peek0 s).tipo = "CHAR_LITERAL" then
      some (.literal (nextT s).1.tipo (nextT s).1.valor, (nextT s).2)
    else if (peek0 s).tipo = "STRING_START" then
      parseStringLiteralF fuel s
    else if (peek0 s).tipo = "IDENTIFIER" ∨ (peek0 s).tipo = "Quoted_identifier" then
      parseIdentCallMemberF fuel s
    else if (peek0 s).tipo = "LPAREN" then
      match parseExpressionF fuel (nextT s).2 with
      | none => none
      | some (e, s1) => some (e, (expect "RPAREN" (some "\x27)\x27 esperado") s1).2)
    else
      some (.errorNode (nextT s).1.lexema,
        errorAtToken (nextT s).2 (nextT s).1 "Expressão primária inválida")

/-- Parser.parse_string_literal (executable form). -/
def parseStringLiteralF : Nat → PState → Option (Node × PState)
  | 0, _ => none
  | fuel + 1, s =>
    match parseStringPartsLoopF fuel (expect "STRING_START" none s).2 with
    | none => none
    | some (parts, s1) =>
      some (.stringLit parts, (expect "STRING_END" (some "Fim de string esperado") s1).2)

/-- The part-collecting loop of parse_string_literal (executable form). -/
def parseStringPartsLoopF : Nat → PState → Option (List SPart × PState)
  | 0, _ => none
  | fuel + 1, s =>
    if (peek0 s).tipo = "STRING_END" ∨ (peek0 s).tipo = "EOF" then some ([], s)
    else
      if (nextT s).1.tipo = "STRING_TEXT" then
        match parseStringPartsLoopF fuel (nextT s).2 with
        | none => none
        | some (rest, s2) => some (.text (nextT s).1.valor :: rest, s2)
      else if (nextT s).1.tipo = "STRING_INTERP_ID" then
        match parseStringPartsLoopF fuel (nextT s).2 with
        | none => none
        | some (rest, s2) => some (.interpId (nextT s).1.lexema :: rest, s2)
      else if (nextT s).1.tipo = "STRING_INTERP_START" then
        let pr : List SPart × PState :=
          if (peek0 (nextT s).2).tipo = "STRING_INTERP_EXPR" then
            ([.interpExpr (nextT (nextT s).2).1.lexema], (nextT (nextT s).2).2)
          else ([], (nextT s).2)
        let s3 :=
          if (peek0 pr.2).tipo = "STRING_INTERP_END" then (nextT pr.2).2
          else panicRecover (errorAtToken pr.2 (peek0 pr.2)
            "Fim de interpolação esperado (\x27\x7d\x27)")
        match parseStringPartsLoopF fuel s3 with
        | none => none
        | some (rest, s2) => some (pr.1 ++ rest, s2)
      else
        match parseStringPartsLoopF fuel (nextT s).2 with
        | none => none
        | some (rest, s2) => some (.unknown (nextT s).1.lexema :: rest, s2)

/-- Parser.parse_identifier_or_call_or_member (executable form). -/
def parseIdentCallMemberF : Nat → PState → Option (Node × PState)
  | 0, _ => none
  | fuel + 1, s =>
    if (peek0 s).tipo = "IDENTIFIER" ∨ (peek0 s).tipo = "Quoted_identifier" then
      parseChainLoopF fuel (.ident (nextT s).1.lexema) (nextT s).2
    else
      some (.errorNode (nextT s).1.lexema,
        errorAtToken (nextT s).2 (nextT s).1 "Identificador esperado")

/-- The call/member chain loop (executable form). -/
def parseChainLoopF : Nat → Node → PState → Option (Node × PState)
  | 0, _, _ => none
  | fuel + 1, node, s =>
    if (peek0 s).tipo = "LPAREN" then
      match
        (if (peek0 (nextT s).2).tipo ≠ "RPAREN" then parseArgsLoopF fuel (nextT s).2
         else some ([], (nextT s).2)) with
      | none => none
      | some (args, s2) =>
        parseChainLoopF fuel (.call node args)
          (expect "RPAREN" (some "\x27)\x27 esperado após argumentos de chamada") s2).2
    else if (peek0 s).tipo = "DOT" ∨ (peek0 s).tipo = "OP_SAFE_CALL" ∨
        (peek0 s).tipo = "OP_NOT_NULL" then
      let s2 :=
        if ((nextT s).1.tipo = "OP_NOT_NULL and getattr(op_tok,\x27tipo\x27,None)" ∨
            (nextT s).1.tipo = "OP_NOT_NULL") ∧ (peek0 (nextT s).2).tipo = "DOT" then
          (nextT (nextT s).2).2
        else (nextT s).2
      if (peek0 s2).tipo = "IDENTIFIER" ∨ (peek0 s2).tipo = "Quoted_identifier" then
        parseChainLoopF fuel (.member node (nextT s).1.lexema (nextT s2).1.lexema)
          (nextT s2).2
      else
        some (node, panicRecover (errorAtToken s2 (peek0 s2)
          "Nome de membro esperado após \x27.\x27 ou \x27?.\x27 etc."))
    else some (node, s)

/-- The call-argument loop (executable form). -/
def parseArgsLoopF : Nat → PState → Option (List Node × PState)
  | 0, _ => none
  | fuel + 1, s =>
    match parseExpressionF fuel s with
    | none => none
    | some (e1, s1) =>
      if (accept "COMMA" s1).1 then
        match parseArgsLoopF fuel (accept "COMMA" s1).2 with
        | none => none
        | some (rest, s2) => some (e1 :: rest, s2)
      else some ([e1], (accept "COMMA" s1).2)

end

/-- Parser._collect_modifiers (executable form). -/
def collectModifiersF : Nat → PState → Option (List String × PState)
  | 0, _ => none
  | fuel + 1, s =>
    if ehMod (peek0 s) then
      match collectModifiersF fuel (nextT s).2 with
      | none => none
      | some (mods, s1) => some ((nextT s).1.lexema :: mods, s1)
    else some ([], s)

/-- The identifier-list loop of the destructuring form of
parse_property_decl (executable form). -/
def destructPartsLoopF : Nat → PState → Option (List String × PState)
  | 0, _ => none
  | fuel + 1, s =>
    if (peek0 s).tipo = "RPAREN" ∨ (peek0 s).tipo = "EOF" then some ([], s)
    else
      if (peek0 s).tipo = "IDENTIFIER" then
        if (accept "COMMA" (nextT s).2).1 then
          match destructPartsLoopF fuel (accept "COMMA" (nextT s).2).2 with
          | none => none
          | some (rest, s2) => some ((nextT s).1.lexema :: rest, s2)
        else some ([(nextT s).1.lexema], (accept "COMMA" (nextT s).2).2)
      else
        some ([], panicRecover (errorAtToken s (peek0 s)
          "Identificador esperado em destruturação"))

/-- Parser.parse_property_decl (executable form): destructuring or plain
property, with the tolerant recovery after a colon followed by an
expression-start token. -/
def parsePropertyDeclF (fuel : Nat) (modifiers : List String) (s : PState) :
    Option (Node × PState) :=
  match fuel with
  | 0 => none
  | fuel + 1 =>
    let kind := (nextT s).1.tipo
    let s1 := (nextT s).2
    if (peek0 s1).tipo = "LPAREN" then
      match destructPartsLoopF fuel (nextT s1).2 with
      | none => none
      | some (parts, s3) =>
        let e1 := expect "RPAREN" (some "\x27)\x27 esperado na destruturação") s3
        let vstep : Option (Option Node × PState) :=
          if (accept "OP_ASSIGN" e1.2).1 then
            match parseExpressionF fuel (accept "OP_ASSIGN" e1.2).2 with
            | none => none
            | some (v, s4) => some (some v, s4)
          else
            some (none, panicRecover (errorAtToken e1.2 (peek0 e1.2)
              "Atribuição esperada em destruturação"))
        match vstep with
        | none => none
        | some (value, s5) =>
          let e2 := expect "SEMICOLON"
            (some "Ponto-e-vírgula esperado ao final da declaração") s5
          some (.destructuring kind parts value modifiers, e2.2)
    else
      let nstep : String × PState :=
        if (peek0 s1).tipo = "IDENTIFIER" ∨ (peek0 s1).tipo = "Quoted_identifier" then
          ((nextT s1).1.lexema, (nextT s1).2)
        else
          ("<erro>", panicRecover (errorAtToken s1 (peek0 s1) "Nome da propriedade esperado"))
      let name := nstep.1
      let s2 := nstep.2
      let a1 := accept "COLON" s2
      let tstep : Option String × PState :=
        if a1.1 then
          if (peek0 a1.2).tipo = "IDENTIFIER" then
            (some ((nextT a1.2).1.lexema ++
              (if (accept "QUESTION" (nextT a1.2).2).1 then "?" else "")),
             (accept "QUESTION" (nextT a1.2).2).2)
          else
            if (peek0 a1.2).tipo = "INT_LITERAL" ∨ (peek0 a1.2).tipo = "FLOAT_LITERAL" ∨
                (peek0 a1.2).tipo = "STRING_START" ∨ (peek0 a1.2).tipo = "CHAR_LITERAL" ∨
                (peek0 a1.2).tipo = "IDENTIFIER" ∨ (peek0 a1.2).tipo = "LPAREN" then
              (none, errorAtToken a1.2 (peek0 a1.2)
                "Tipo esperado após \x27:\x27 — assumindo iniacializador (recuperação tolerante).")
            else
              (none, errorAtToken a1.2 (peek0 a1.2) "Tipo esperado após \x27:\x27 em propriedade")
        else (none, a1.2)
      let varType := tstep.1
      let s3 := tstep.2
      let a2 := accept "OP_ASSIGN" s3
      let vstep : Option (Option Node × PState) :=
        if a2.1 then
          match parseExpressionF fuel a2.2 with
          | none => none
          | some (v, s4) => some (some v, s4)
        else
          if varType = none ∧ ((peek0 a2.2).tipo = "INT_LITERAL" ∨
              (peek0 a2.2).tipo = "FLOAT_LITERAL" ∨ (peek0 a2.2).tipo = "STRING_START" ∨
              (peek0 a2.2).tipo = "CHAR_LITERAL" ∨ (peek0 a2.2).tipo = "IDENTIFIER" ∨
              (peek0 a2.2).tipo = "LPAREN") then
            match parseExpressionF fuel a2.2 with
            | none => none
            | some (v, s4) => some (some v, s4)
          else some (none, a2.2)
      match vstep with
      | none => none
      | some (value, s5) =>
        let s6 :=
          if (peek0 s5).tipo = "SEMICOLON" then (nextT s5).2
          else panicRecover (errorAtToken s5 (peek0 s5)
            "Ponto-e-vírgula esperado ao final da declaração de propriedade")
        some (.property kind name varType value modifiers, s6)

mutual

/-- Parser.parse_statement (executable form). -/
def parseStatementF : Nat → PState → Option (Node × PState)
  | 0, _ => none
  | fuel + 1, s =>
    if (peek0 s).tipo = "KW_VAL" ∨ (peek0 s).tipo = "KW_VAR" then
      parsePropertyDeclF fuel [] s
    else if (peek0 s).tipo = "KW_IF" then parseIfF fuel s
    else if (peek0 s).tipo = "KW_FOR" then parseForF fuel s
    else if (peek0 s).tipo = "LBRACE" then parseBlockF fuel (nextT s).2
    else
      match parseExpressionF fuel s with
      | none => none
      | some (expr, s1) =>
        let s2 :=
          if (peek0 s1).tipo = "SEMICOLON" then (nextT s1).2
          else panicRecover (errorAtToken s1 (peek0 s1)
            "Ponto-e-vírgula esperado ao final da instrução")
        some (.exprStmt expr, s2)

/-- Parser.parse_block (executable form), entered after the brace was
consumed. -/
def parseBlockF : Nat → PState → Option (Node × PState)
  | 0, _ => none
  | fuel + 1, s =>
    match parseStmtsLoopF fuel s with
    | none => none
    | some (stmts, s1) =>
      some (.block stmts, (expect "RBRACE" (some "Fechamento de bloco \x27\x7d\x27 esperado") s1).2)

/-- The statement loop of parse_block (executable form).  The Python
branch for a statement-less iteration is dead code (parse_statement
always returns a node), so every iteration conses one statement. -/
def parseStmtsLoopF : Nat → PState → Option (List Node × PState)
  | 0, _ => none
  | fuel + 1, s =>
    if (peek0 s).tipo = "RBRACE" ∨ (peek0 s).tipo = "EOF" then some ([], s)
    else
      match parseStatementF fuel s with
      | none => none
      | some (st, s1) =>
        match parseStmtsLoopF fuel s1 with
        | none => none
        | some (rest, s2) => some (st :: rest, s2)

/-- Parser.parse_if (executable form). -/
def parseIfF : Nat → PState → Option (Node × PState)
  | 0, _ => none
  | fuel + 1, s =>
    let e1 := expect "KW_IF" none s
    let e2 := expect "LPAREN" (some "Esperado \x27(\x27 após if") e1.2
    match parseExpressionF fuel e2.2 with
    | none => none
    | some (cond, sc) =>
      let e3 := expect "RPAREN" (some "Esperado \x27)\x27 após condição do if") sc
      let tstep : Option (Node × PState) :=
        if (peek0 e3.2).tipo = "LBRACE" then parseBlockF fuel (nextT e3.2).2
        else parseStatementF fuel e3.2
      match tstep with
      | none => none
      | some (thenN, st) =>
        if (peek0 st).tipo = "KW_ELSE" then
          let se := (nextT st).2
          let estep : Option (Node × PState) :=
            if (peek0 se).tipo = "LBRACE" then parseBlockF fuel (nextT se).2
            else parseStatementF fuel se
          match estep with
          | none => none
          | some (elseN, sf) => some (.ifStmt cond thenN (some elseN), sf)
        else some (.ifStmt cond thenN none, st)

/-- Parser.parse_for (executable form). -/
def parseForF : Nat → PState → Option (Node × PState)
  | 0, _ => none
  | fuel + 1, s =>
    let e1 := expect "KW_FOR" none s
    let e2 := expect "LPAREN" (some "Esperado \x27(\x27 após for") e1.2
    let vstep : Option String × PState :=
      if (peek0 e2.2).tipo = "IDENTIFIER" then (some (nextT e2.2).1.lexema, (nextT e2.2).2)
      else (none, errorAtToken e2.2 (peek0 e2.2) "Identificador de iteração esperado")
    let rstep : Option (Option Node × PState) :=
      if (accept "KW_IN" vstep.2).1 then
        match parseExpressionF fuel (accept "KW_IN" vstep.2).2 with
        | none => none
        | some (rng, sr) => some (some rng, sr)
      else some (none, vstep.2)
    match rstep with
    | none => none
    | some (rng, sr) =>
      let e3 := expect "RPAREN" (some "Esperado \x27)\x27 após cabeçalho do for") sr
      let bstep : Option (Node × PState) :=
        if (accept "LBRACE" e3.2).1 then parseBlockF fuel (accept "LBRACE" e3.2).2
        else parseStatementF fuel e3.2
      match bstep with
      | none => none
      | some (body, sb) => some (.forStmt vstep.1 rng body, sb)

end

/-- The parameter loop of parse_function_decl (executable form). -/
def paramsLoopF : Nat → PState → Option (List FnParam × PState)
  | 0, _ => none
  | fuel + 1, s =>
    if (peek0 s).tipo = "IDENTIFIER" then
      let name := (nextT s).1.lexema
      let s1 := (nextT s).2
      let a := accept "COLON" s1
      let tstep : Option String × PState :=
        if a.1 then
          if (peek0 a.2).tipo = "IDENTIFIER" then
            (some ((nextT a.2).1.lexema ++
              (if (accept "QUESTION" (nextT a.2).2).1 then "?" else "")),
             (accept "QUESTION" (nextT a.2).2).2)
          else (none, a.2)
        else (none, a.2)
      if (accept "COMMA" tstep.2).1 then
        match paramsLoopF fuel (accept "COMMA" tstep.2).2 with
        | none => none
        | some (rest, s2) => some (⟨name, tstep.1⟩ :: rest, s2)
      else some ([⟨name, tstep.1⟩], (accept "COMMA" tstep.2).2)
    else
      some ([], panicRecover (errorAtToken s (peek0 s) "Parâmetro inválido"))

/-- Parser.parse_function_decl (executable form). -/
def parseFunctionDeclF (fuel : Nat) (modifiers : List String) (s : PState) :
    Option (Node × PState) :=
  match fuel with
  | 0 => none
  | fuel + 1 =>
    let e1 := expect "KW_FUN" none s
    let nm := expect "IDENTIFIER" (some "Nome da função esperado") e1.2
    let name := match nm.1 with
      | some t => t.lexema
      | none => "<erro>"
    let e2 := expect "LPAREN" (some "Esperado \x27(\x27 em declaração de função") nm.2
    let pstep : Option (List FnParam × PState) :=
      if (peek0 e2.2).tipo ≠ "RPAREN" then paramsLoopF fuel e2.2
      else some ([], e2.2)
    match pstep with
    | none => none
    | some (params, sp) =>
      let e3 := expect "RPAREN" (some "Esperado \x27)\x27 após parâmetros") sp
      let a := accept "COLON" e3.2
      let rstep : Option String × PState :=
        if a.1 then
          if (peek0 a.2).tipo = "IDENTIFIER" then
            (some ((nextT a.2).1.lexema ++
              (if (accept "QUESTION" (nextT a.2).2).1 then "?" else "")),
             (accept "QUESTION" (nextT a.2).2).2)
          else (none, errorAtToken a.2 (peek0 a.2) "Tipo de retorno esperado após \x27:\x27")
        else (none, a.2)
      let ab := accept "LBRACE" rstep.2
      if ab.1 then
        match parseBlockF fuel ab.2 with
        | none => none
        | some (body, sb) =>
          some (.funDecl name modifiers params rstep.1 (some body), sb)
      else
        let s4 := if (peek0 ab.2).tipo = "SEMICOLON" then (nextT ab.2).2 else ab.2
        some (.funDecl name modifiers params rstep.1 none, s4)

mutual

/-- The member loop of parse_object_decl (executable form). -/
def objMembersLoopF : Nat → PState → Option (List Node × PState)
  | 0, _ => none
  | fuel + 1, s =>
    if (peek0 s).tipo = "RBRACE" ∨ (peek0 s).tipo = "EOF" then some ([], s)
    else
      let mstep : Option (Option Node × PState) :=
        if ehMod (peek0 s) then
          match collectModifiersF fuel s with
          | none => none
          | some (memMods, s1) =>
            if (peek0 s1).tipo = "KW_VAL" ∨ (peek0 s1).tipo = "KW_VAR" then
              match parsePropertyDeclF fuel memMods s1 with
              | none => none
              | some (n, s2) => some (some n, s2)
            else objMemberRestF fuel s1
        else objMemberRestF fuel s
      match mstep with
      | none => none
      | some (m, s2) =>
        match objMembersLoopF fuel s2 with
        | none => none
        | some (rest, s3) =>
          some ((match m with | some n => n :: rest | none => rest), s3)

/-- The shared tail checks of the object member loop (lines 306 to 310 of
parser_kotlin.py): property, function, or a reported unrecognized member. -/
def objMemberRestF : Nat → PState → Option (Option Node × PState)
  | 0, _ => none
  | fuel + 1, s =>
    if (peek0 s).tipo = "KW_VAL" ∨ (peek0 s).tipo = "KW_VAR" then
      match parsePropertyDeclF fuel [] s with
      | none => none
      | some (n, s1) => some (some n, s1)
    else if (peek0 s).tipo = "KW_FUN" then
      match parseFunctionDeclF fuel [] s with
      | none => none
      | some (n, s1) => some (some n, s1)
    else
      some (none, panicRecover (errorAtToken s (peek0 s) "Membro do object não reconhecido"))

end

/-- Parser.parse_object_decl (executable form). -/
def parseObjectDeclF (fuel : Nat) (modifiers : List String) (s : PState) :
    Option (Node × PState) :=
  match fuel with
  | 0 => none
  | fuel + 1 =>
    let e1 := expect "KW_OBJECT" none s
    let nstep : Option String × PState :=
      if (peek0 e1.2).tipo = "IDENTIFIER" then (some (nextT e1.2).1.lexema, (nextT e1.2).2)
      else (none, e1.2)
    let ab := accept "LBRACE" nstep.2
    if ab.1 then
      match objMembersLoopF fuel ab.2 with
      | none => none
      | some (members, sm) =>
        some (.objDecl nstep.1 modifiers members,
          (expect "RBRACE" (some "Fechamento \x27\x7d\x27 esperado no object") sm).2)
    else some (.objDecl nstep.1 modifiers [], ab.2)

mutual

/-- The member loop of parse_class_decl (executable form). -/
def classMembersLoopF : Nat → PState → Option (List Node × PState)
  | 0, _ => none
  | fuel + 1, s =>
    if (peek0 s).tipo = "RBRACE" ∨ (peek0 s).tipo = "EOF" then some ([], s)
    else
      let mstep : Option (Option Node × PState) :=
        if ehMod (peek0 s) then
          match collectModifiersF fuel s with
          | none => none
          | some (memberMods, s1) =>
            if (peek0 s1).tipo = "KW_OBJECT" then
              match parseObjectDeclF fuel memberMods s1 with
              | none => none
              | some (n, s2) => some (some n, s2)
            else if (peek0 s1).tipo = "KW_VAL" ∨ (peek0 s1).tipo = "KW_VAR" then
              match parsePropertyDeclF fuel memberMods s1 with
              | none => none
              | some (n, s2) => some (some n, s2)
            else if (peek0 s1).tipo = "KW_FUN" then
              match parseFunctionDeclF fuel memberMods s1 with
              | none => none
              | some (n, s2) => some (some n, s2)
            else classMemberRestF fuel s1
        else classMemberRestF fuel s
      match mstep with
      | none => none
      | some (m, s2) =>
        match classMembersLoopF fuel s2 with
        | none => none
        | some (rest, s3) =>
          some ((match m with | some n => n :: rest | none => rest), s3)

/-- The unmodified-member checks of the class member loop (lines 278 to
285 of parser_kotlin.py). -/
def classMemberRestF : Nat → PState → Option (Option Node × PState)
  | 0, _ => none
  | fuel + 1, s =>
    if (peek0 s).tipo = "KW_VAL" ∨ (peek0 s).tipo = "KW_VAR" then
      match parsePropertyDeclF fuel [] s with
      | none => none
      | some (n, s1) => some (some n, s1)
    else if (peek0 s).tipo = "KW_FUN" then
      match parseFunctionDeclF fuel [] s with
      | none => none
      | some (n, s1) => some (some n, s1)
    else if (peek0 s).tipo = "KW_OBJECT" then
      match parseObjectDeclF fuel [] s with
      | none => none
      | some (n, s1) => some (some n, s1)
    else
      some (none, panicRecover (errorAtToken s (peek0 s)
        "Membro de classe não reconhecido (ignorado)"))

end

/-- Parser.parse_class_decl (executable form). -/
def parseClassDeclF (fuel : Nat) (modifiers : List String) (s : PState) :
    Option (Node × PState) :=
  match fuel with
  | 0 => none
  | fuel + 1 =>
    let e1 := expect "KW_CLASS" none s
    let nm := expect "IDENTIFIER" (some "Nome da classe esperado após \x27class\x27") e1.2
    let name := match nm.1 with
      | some t => t.lexema
      | none => "<erro>"
    let ab := accept "LBRACE" nm.2
    if ab.1 then
      match classMembersLoopF fuel ab.2 with
      | none => none
      | some (members, sm) =>
        some (.clsDecl name modifiers (some members),
          (expect "RBRACE" (some "Fechamento \x27\x7d\x27 esperado no corpo da classe") sm).2)
    else some (.clsDecl name modifiers none, ab.2)

/-- Parser.parse_top_level_decl (executable form); a None node means no
declaration was produced. -/
def parseTopLevelDeclF (fuel : Nat) (s : PState) : Option (Option Node × PState) :=
  match fuel with
  | 0 => none
  | fuel + 1 =>
    match collectModifiersF fuel s with
    | none => none
    | some (mods, s1) =>
      if (peek0 s1).tipo = "KW_CLASS" then
        match parseClassDeclF fuel mods s1 with
        | none => none
        | some (n, s2) => some (some n, s2)
      else if (peek0 s1).tipo = "KW_FUN" then
        match parseFunctionDeclF fuel mods s1 with
        | none => none
        | some (n, s2) => some (some n, s2)
      else if (peek0 s1).tipo = "KW_VAL" ∨ (peek0 s1).tipo = "KW_VAR" then
        match parsePropertyDeclF fuel mods s1 with
        | none => none
        | some (n, s2) => some (some n, s2)
      else if (peek0 s1).tipo = "SEMICOLON" then some (none, (nextT s1).2)
      else
        some (none, panicRecover (errorAtToken s1 (peek0 s1) "Declaração de topo inválida"))

/-- The dotted-name loop of parse_package_decl (executable form). -/
def pkgDotLoopF : Nat → PState → Option (List String × PState)
  | 0, _ => none
  | fuel + 1, s =>
    if (accept "DOT" s).1 then
      if (peek0 (accept "DOT" s).2).tipo = "IDENTIFIER" then
        match pkgDotLoopF fuel (nextT (accept "DOT" s).2).2 with
        | none => none
        | some (rest, s2) => some ((nextT (accept "DOT" s).2).1.lexema :: rest, s2)
      else
        some ([], errorAtToken (accept "DOT" s).2 (peek0 (accept "DOT" s).2)
          "Identificador esperado após \x27.\x27 no package")
    else some ([], s)

/-- Parser.parse_package_decl (executable form). -/
def parsePackageDeclF (fuel : Nat) (s : PState) : Option (Node × PState) :=
  match fuel with
  | 0 => none
  | fuel + 1 =>
    let e1 := expect "KW_PACKAGE" none s
    let pstep : Option (List String × PState) :=
      if (peek0 e1.2).tipo = "IDENTIFIER" then
        match pkgDotLoopF fuel (nextT e1.2).2 with
        | none => none
        | some (rest, s2) => some ((nextT e1.2).1.lexema :: rest, s2)
      else some ([], e1.2)
    match pstep with
    | none => none
    | some (parts, sp) =>
      let e2 := expect "SEMICOLON"
        (some "Ponto-e-vírgula esperado após declaração de package") sp
      some (.pkgDecl (String.intercalate "." parts), e2.2)

/-- The dotted-name loop of parse_import_decl (executable form),
supporting the trailing wildcard. -/
def impDotLoopF : Nat → PState → Option (List String × PState)
  | 0, _ => none
  | fuel + 1, s =>
    if (accept "DOT" s).1 then
      if (peek0 (accept "DOT" s).2).tipo = "OP_MUL" then
        some (["*"], (nextT (accept "DOT" s).2).2)
      else if (peek0 (accept "DOT" s).2).tipo = "IDENTIFIER" then
        match impDotLoopF fuel (nextT (accept "DOT" s).2).2 with
        | none => none
        | some (rest, s2) => some ((nextT (accept "DOT" s).2).1.lexema :: rest, s2)
      else
        some ([], errorAtToken (accept "DOT" s).2 (peek0 (accept "DOT" s).2)
          "Identificador esperado no import")
    else some ([], s)

/-- Parser.parse_import_decl (executable form). -/
def parseImportDeclF (fuel : Nat) (s : PState) : Option (Node × PState) :=
  match fuel with
  | 0 => none
  | fuel + 1 =>
    let e1 := expect "SK_IMPORT" none s
    let pstep : Option (List String × PState) :=
      if (peek0 e1.2).tipo = "IDENTIFIER" then
        match impDotLoopF fuel (nextT e1.2).2 with
        | none => none
        | some (rest, s2) => some ((nextT e1.2).1.lexema :: rest, s2)
      else some ([], e1.2)
    match pstep with
    | none => none
    | some (parts, sp) =>
      let e2 := expect "SEMICOLON" (some "Ponto-e-vírgula esperado após import") sp
      some (.impDecl (String.intercalate "." parts), e2.2)

/-- The import loop of Parser.parse (executable form). -/
def importsLoopF : Nat → PState → Option (List Node × PState)
  | 0, _ => none
  | fuel + 1, s =>
    if (peek0 s).tipo = "SK_IMPORT" ∨ (peek0 s).tipo = "IMPORT" then
      match parseImportDeclF fuel s with
      | none => none
      | some (imp, s1) =>
        match importsLoopF fuel s1 with
        | none => none
        | some (rest, s2) => some (imp :: rest, s2)
    else some ([], s)

/-- The top-level declaration loop of Parser.parse (executable form). -/
def declsLoopF : Nat → PState → Option (List Node × PState)
  | 0, _ => none
  | fuel + 1, s =>
    if (peek0 s).tipo ≠ "EOF" then
      match parseTopLevelDeclF fuel s with
      | none => none
      | some (some decl, s1) =>
        match declsLoopF fuel s1 with
        | none => none
        | some (rest, s2) => some (decl :: rest, s2)
      | some (none, s1) =>
        if (peek0 s1).tipo = "EOF" then some ([], s1)
        else declsLoopF fuel (panicRecover s1)
    else some ([], s)

/-- Parser.parse (executable form): optional package, imports, then
top-level declarations until EOF. -/
def parseF (fuel : Nat) (s : PState) : Option (Node × PState) :=
  let pstep : Option (Option Node × PState) :=
    if (peek0 s).tipo = "KW_PACKAGE" then
      match parsePackageDeclF fuel s with
      | none => none
      | some (n, s1) => some (some n, s1)
    else some (none, s)
  match pstep with
  | none => none
  | some (pkg, s1) =>
    match importsLoopF fuel s1 with
    | none => none
    | some (imps, s2) =>
      match declsLoopF fuel s2 with
      | none => none
      | some (decls, s3) => some (.kotlinFile pkg imps decls, s3)

/-- Parser._collect_modifiers on the token list: gather the lexemes of
the leading tokens whose tipo starts with MOD_. -/
def collectModifiersToks : List PTok → List String × List PTok
  | [] => ([], [])
  | t :: ts =>
    if ehMod t then
      ((collectModifiersToks ts).1.cons t.lexema, (collectModifiersToks ts).2)
    else ([], t :: ts)

/-- Parser._collect_modifiers. -/
def collectModifiers (s : PState) : List String × PState :=
  ((collectModifiersToks s.toks).1, ⟨(collectModifiersToks s.toks).2, s.errors⟩)

lemma collectModifiersToks_suffix (l : List PTok) : (collectModifiersToks l).2 <:+ l := by
  induction l with
  | nil => exact List.suffix_rfl
  | cons t ts ih =>
    unfold collectModifiersToks
    by_cases h : ehMod t
    · rw [if_pos h]
      exact ih.trans (List.suffix_cons t ts)
    · rw [if_neg h]

lemma collectModifiers_suffix (s : PState) : (collectModifiers s).2.toks <:+ s.toks :=
  collectModifiersToks_suffix s.toks

lemma collectModifiersToks_strict {t : PTok} {ts : List PTok} (h : ehMod t = true) :
    ((collectModifiersToks (t :: ts)).2).length < (t :: ts).length := by
  unfold collectModifiersToks
  rw [if_pos h]
  have := (collectModifiersToks_suffix ts).length_le
  simp
  omega

lemma collectModifiersToks_nomod {t : PTok} {ts : List PTok} (h : ¬ ehMod t = true) :
    collectModifiersToks (t :: ts) = ([], t :: ts) := by
  unfold collectModifiersToks
  rw [if_neg h]

/-- A step taken after _collect_modifiers still satisfies StepOk from the
original state: when the head is a modifier the collection itself strictly
consumes, and otherwise it consumes nothing. -/
lemma collect_then_stepOk {s s2 : PState} (pf : StepOk (collectModifiers s).2 s2) :
    StepOk s s2 := by
  constructor
  · exact pf.1.trans (collectModifiers_suffix s)
  · intro t ts he hne
    by_cases hm : ehMod t
    · have h8 : (collectModifiers s).2.toks.length < s.toks.length := by
        show ((collectModifiersToks s.toks).2).length < s.toks.length
        rw [he]
        exact collectModifiersToks_strict hm
      exact lt_of_le_of_lt pf.1.length_le h8
    · have heq : (collectModifiers s).2.toks = s.toks := by
        show (collectModifiersToks s.toks).2 = s.toks
        rw [he, collectModifiersToks_nomod hm]

      calc s2.toks.length < (collectModifiers s).2.toks.length :=
            pf.2 t ts (by rw [heq, he]) hne
        _ = s.toks.length := by rw [heq]

/-- The shared final step of property declarations and expression
statements: consume a SEMICOLON, or report the given message and
panic-recover. -/
def semiTailStep (msg : String) (s : PState) : { s2 : PState // s2.toks <:+ s.toks } :=
  if (peek0 s).tipo = "SEMICOLON" then ⟨(nextT s).2, List.tail_suffix _⟩
  else ⟨panicRecover (errorAtToken s (peek0 s) msg), panicToks_suffix _⟩

/-- Lines 392-399 of parse_property_decl: the property name, or a
diagnostic plus panic recovery. -/
def propNameStep (s : PState) : { p : String × PState // p.2.toks <:+ s.toks } :=
  if (peek0 s).tipo = "IDENTIFIER" ∨ (peek0 s).tipo = "Quoted_identifier" then
    ⟨((nextT s).1.lexema, (nextT s).2), List.tail_suffix _⟩
  else
    ⟨("<erro>", panicRecover (errorAtToken s (peek0 s) "Nome da propriedade esperado")),
     panicToks_suffix _⟩

/-- Lines 401-417 of parse_property_decl: the optional ':' type
annotation with the tolerant recovery when an expression-start token
follows the colon. -/
def propTypeStep (s : PState) : { p : Option String × PState // p.2.toks <:+ s.toks } :=
  if (accept "COLON" s).1 then
    if (peek0 (accept "COLON" s).2).tipo = "IDENTIFIER" then
      ⟨(some ((nextT (accept "COLON" s).2).1.lexema ++
          (if (accept "QUESTION" (nextT (accept "COLON" s).2).2).1 then "?" else "")),
        (accept "QUESTION" (nextT (accept "COLON" s).2).2).2),
       (accept_suffix _ _).trans ((List.tail_suffix _).trans (accept_suffix _ _))⟩
    else
      if (peek0 (accept "COLON" s).2).tipo = "INT_LITERAL" ∨
         (peek0 (accept "COLON" s).2).tipo = "FLOAT_LITERAL" ∨
         (peek0 (accept "COLON" s).2).tipo = "STRING_START" ∨
         (peek0 (accept "COLON" s).2).tipo = "CHAR_LITERAL" ∨
         (peek0 (accept "COLON" s).2).tipo = "IDENTIFIER" ∨
         (peek0 (accept "COLON" s).2).tipo = "LPAREN" then
        ⟨(none, errorAtToken (accept "COLON" s).2 (peek0 (accept "COLON" s).2)
            "Tipo esperado após \x27:\x27 — assumindo iniacializador (recuperação tolerante)."),
         accept_suffix _ _⟩
      else
        ⟨(none, errorAtToken (accept "COLON" s).2 (peek0 (accept "COLON" s).2)
            "Tipo esperado após \x27:\x27 em propriedade"),
         accept_suffix _ _⟩
  else ⟨(none, (accept "COLON" s).2), accept_suffix _ _⟩

/-- Lines 420-427 of parse_property_decl: the '=' initializer, or the
automatic initializer after a tolerant ':' recovery. -/
def propValueStep (varType : Option String) (s : PState) :
    { p : Option Node × PState // p.2.toks <:+ s.toks } :=
  if (accept "OP_ASSIGN" s).1 then
    match parseExpression (accept "OP_ASSIGN" s).2 with
    | ⟨(v, s4), pf⟩ => ⟨(some v, s4), pf.1.trans (accept_suffix _ _)⟩
  else
    if varType = none ∧ ((peek0 (accept "OP_ASSIGN" s).2).tipo = "INT_LITERAL" ∨
        (peek0 (accept "OP_ASSIGN" s).2).tipo = "FLOAT_LITERAL" ∨
        (peek0 (accept "OP_ASSIGN" s).2).tipo = "STRING_START" ∨
        (peek0 (accept "OP_ASSIGN" s).2).tipo = "CHAR_LITERAL" ∨
        (peek0 (accept "OP_ASSIGN" s).2).tipo = "IDENTIFIER" ∨
        (peek0 (accept "OP_ASSIGN" s).2).tipo = "LPAREN") then
      match parseExpression (accept "OP_ASSIGN" s).2 with
      | ⟨(v, s4), pf⟩ => ⟨(some v, s4), pf.1.trans (accept_suffix _ _)⟩
    else ⟨(none, (accept "OP_ASSIGN" s).2), accept_suffix _ _⟩

/-- Lines 383-387 of parse_property_decl: the '=' initializer of a
destructuring declaration, or a diagnostic plus panic recovery. -/
def propAssignStep (s : PState) : { p : Option Node × PState // p.2.toks <:+ s.toks } :=
  if (accept "OP_ASSIGN" s).1 then
    match parseExpression (accept "OP_ASSIGN" s).2 with
    | ⟨(v, s4), pf⟩ => ⟨(some v, s4), pf.1.trans (accept_suffix _ _)⟩
  else
    ⟨(none, panicRecover (errorAtToken s (peek0 s) "Atribuição esperada em destruturação")),
     panicToks_suffix _⟩

/-- Lines 376-381 of parse_property_decl: the identifier list of a
destructuring declaration.  Each continuing iteration consumes an
identifier and a comma. -/
def destructLoop (s : PState) : PResW (List String) s :=
  if hstop : (peek0 s).tipo = "RPAREN" ∨ (peek0 s).tipo = "EOF" then
    ⟨([], s), List.suffix_rfl⟩
  else
    if hid : (peek0 s).tipo = "IDENTIFIER" then
      if hcm : (accept "COMMA" (nextT s).2).1 then
        match destructLoop (accept "COMMA" (nextT s).2).2 with
        | ⟨(rest, s2), pf⟩ =>
          ⟨((nextT s).1.lexema :: rest, s2),
           pf.trans ((accept_suffix _ _).trans (List.tail_suffix _))⟩
      else
        ⟨([(nextT s).1.lexema], (accept "COMMA" (nextT s).2).2),
         (accept_suffix _ _).trans (List.tail_suffix _)⟩
    else
      ⟨([], panicRecover (errorAtToken s (peek0 s) "Identificador esperado em destruturação")),
       panicToks_suffix _⟩
termination_by s.toks.length
decreasing_by
  have h1 : (accept "COMMA" (nextT s).2).2.toks.length < (nextT s).2.toks.length :=
    accept_stepOk_of_true _ _ (by decide) hcm
  have h2 : s.toks = peek0 s :: s.toks.tail :=
    toks_cons_of_peek0 (by rw [hid]; decide)
  have h3 : (nextT s).2.toks.length < s.toks.length := by
    rw [nextT_toks]
    rw [h2]
    simp
  omega

/-- Parser.parse_property_decl: destructuring or plain property. -/
def parsePropertyDecl (modifiers : List String) (s : PState) : PRes Node s :=
  if hL : (peek0 (nextT s).2).tipo = "LPAREN" then
    match destructLoop (nextT (nextT s).2).2 with
    | ⟨(parts, s3), pf3⟩ =>
      match propAssignStep (expect "RPAREN" (some "\x27)\x27 esperado na destruturação") s3).2 with
      | ⟨(value, s5), pf5⟩ =>
        ⟨(.destructuring (nextT s).1.tipo parts value modifiers,
          (expect "SEMICOLON" (some "Ponto-e-vírgula esperado ao final da declaração") s5).2),
         StepOk.comp (nextT_stepOk s)
           ((expect_stepOk _ _ _).1.trans (pf5.trans ((expect_stepOk _ _ _).1.trans
             (pf3.trans (List.tail_suffix _)))))⟩
  else
    match propNameStep (nextT s).2 with
    | ⟨(name, s2), pf2⟩ =>
      match propTypeStep s2 with
      | ⟨(varType, s3), pf3⟩ =>
        match propValueStep varType s3 with
        | ⟨(value, s5), pf5⟩ =>
          match semiTailStep "Ponto-e-vírgula esperado ao final da declaração de propriedade" s5 with
          | ⟨s6, pf6⟩ =>
            ⟨(.property (nextT s).1.tipo name varType value modifiers, s6),
             StepOk.comp (nextT_stepOk s)
               (pf6.trans (pf5.trans (pf3.trans pf2)))⟩

lemma stepOk_of_peek_strict {s sc X : PState} (hsfx : X.toks <:+ s.toks)
    (hle : X.toks.length ≤ sc.toks.length)
    (hstrict : (peek0 s).tipo ≠ "EOF" → sc.toks.length < s.toks.length) : StepOk s X :=
  ⟨hsfx, fun _ _ he hne => lt_of_le_of_lt hle (hstrict (by rw [peek0_cons he]; exact hne))⟩

/-- Termination rank of parse_if and parse_for: when the state still has a
real token the mandatory keyword consumption shrinks it, so the rank may
sit below parse_statement; on an exhausted state nothing is consumed and
the rank must sit above every função the body can call. -/
def rankEstado (s : PState) : Nat :=
  if s.toks = [] ∨ (peek0 s).tipo = "EOF" then 45 else 35

/-- Lines 500-502 of parse_for: the iteration identifier, or a diagnostic
without panic recovery. -/
def forVarStep (s : PState) : { p : Option String × PState // p.2.toks <:+ s.toks } :=
  if (peek0 s).tipo = "IDENTIFIER" then
    ⟨(some (nextT s).1.lexema, (nextT s).2), List.tail_suffix _⟩
  else
    ⟨(none, errorAtToken s (peek0 s) "Identificador de iteração esperado"), List.suffix_rfl⟩

/-- Lines 503-504 of parse_for: the optional 'in range' expression. -/
def forRangeStep (s : PState) : { p : Option Node × PState // p.2.toks <:+ s.toks } :=
  if (accept "KW_IN" s).1 then
    match parseExpression (accept "KW_IN" s).2 with
    | ⟨(r, sr), pf⟩ => ⟨(some r, sr), pf.1.trans (accept_suffix _ _)⟩
  else ⟨(none, (accept "KW_IN" s).2), accept_suffix _ _⟩

mutual

/-- Parser.parse_statement. -/
def parseStatement (s : PState) : PRes Node s :=
  if hv : (peek0 s).tipo = "KW_VAL" ∨ (peek0 s).tipo = "KW_VAR" then
    parsePropertyDecl [] s
  else if hif : (peek0 s).tipo = "KW_IF" then parseIf s
  else if hfor : (peek0 s).tipo = "KW_FOR" then parseFor s
  else if hlb : (peek0 s).tipo = "LBRACE" then
    match parseBlock (nextT s).2 with
    | ⟨(b, s1), pf⟩ => ⟨(b, s1), StepOk.comp (nextT_stepOk s) pf.1⟩
  else
    match parseExpression s with
    | ⟨(expr, s1), pf1⟩ =>
      match semiTailStep "Ponto-e-vírgula esperado ao final da instrução" s1 with
      | ⟨s2, pf2⟩ => ⟨(.exprStmt expr, s2), StepOk.comp pf1 pf2⟩
termination_by s.toks.length * 64 + 40
decreasing_by
  · have hne : (peek0 s).tipo ≠ "EOF" := by rw [hif]; decide
    have hnil : s.toks ≠ [] := by
      intro hn
      have : ¬ ((peek0 s).tipo = "KW_IF") := by rw [peek0_nil hn]; decide
      exact this hif
    unfold rankEstado
    rw [if_neg (by push_neg; exact ⟨hnil, hne⟩)]
    omega
  · have hne : (peek0 s).tipo ≠ "EOF" := by rw [hfor]; decide
    have hnil : s.toks ≠ [] := by
      intro hn
      have : ¬ ((peek0 s).tipo = "KW_FOR") := by rw [peek0_nil hn]; decide
      exact this hfor
    unfold rankEstado
    rw [if_neg (by push_neg; exact ⟨hnil, hne⟩)]
    omega
  · have hne : (peek0 s).tipo ≠ "EOF" := by rw [hlb]; decide
    have h1 : (nextT s).2.toks.length < s.toks.length := by
      rw [nextT_toks, toks_cons_of_peek0 hne]
      simp
    omega

/-- The statement loop of Parser.parse_block.  The branch for a
statement-less iteration is dead code in the source (parse_statement
always returns a node), so every iteration appends one statement.  The
result is either the unchanged input state or a strictly shorter one. -/
def stmtsLoop (s : PState) :
    { p : List Node × PState //
      p.2.toks <:+ s.toks ∧ (p.2 = s ∨ p.2.toks.length < s.toks.length) } :=
  if hstop : (peek0 s).tipo = "RBRACE" ∨ (peek0 s).tipo = "EOF" then
    ⟨([], s), List.suffix_rfl, Or.inl rfl⟩
  else
    match parseStatement s with
    | ⟨(st, s1), pf1⟩ =>
      have h9 : s1.toks.length < s.toks.length :=
        pf1.2 (peek0 s) s.toks.tail
          (toks_cons_of_peek0 (fun he => hstop (Or.inr he)))
          (fun he => hstop (Or.inr he))
      match stmtsLoop s1 with
      | ⟨(rest, s2), pf2⟩ =>
        ⟨(st :: rest, s2), pf2.1.trans pf1.1,
         Or.inr (lt_of_le_of_lt pf2.1.length_le h9)⟩
termination_by s.toks.length * 64 + 41
decreasing_by
  · omega
  · omega

/-- Parser.parse_block, entered after the opening brace was consumed. -/
def parseBlock (s : PState) : PRes Node s :=
  match stmtsLoop s with
  | ⟨(stmts, s1), pf1⟩ =>
    ⟨(.block stmts, (expect "RBRACE" (some "Fechamento de bloco \x27\x7d\x27 esperado") s1).2),
     by
       rcases pf1.2 with he | hl
       · subst he
         exact expect_stepOk _ _ _
       · exact stepOk_of_lt ((expect_stepOk _ _ _).1.trans pf1.1)
           (lt_of_le_of_lt (expect_stepOk _ _ _).1.length_le hl)⟩
termination_by s.toks.length * 64 + 42
decreasing_by
  · omega

/-- The shared then/else/for-body step: an LBRACE opens a nested block,
anything else is a single statement (lines 484-485, 489-490, 507-508). -/
def blockOrStmtStep (s : PState) : PRes Node s :=
  if hbr : (peek0 s).tipo = "LBRACE" then
    match parseBlock (nextT s).2 with
    | ⟨(b, s1), pf⟩ => ⟨(b, s1), StepOk.comp (nextT_stepOk s) pf.1⟩
  else parseStatement s
termination_by s.toks.length * 64 + 43
decreasing_by
  · have hne : (peek0 s).tipo ≠ "EOF" := by rw [hbr]; decide
    have h1 : (nextT s).2.toks.length < s.toks.length := by
      rw [nextT_toks, toks_cons_of_peek0 hne]
      simp
    omega
  · omega

/-- Parser.parse_if. -/
def parseIf (s : PState) : PRes Node s :=
  match parseExpression (expect "LPAREN" (some "Esperado \x27(\x27 após if")
      (expect "KW_IF" none s).2).2 with
  | ⟨(cond, sc), pfc⟩ =>
    match blockOrStmtStep (expect "RPAREN" (some "Esperado \x27)\x27 após condição do if") sc).2 with
    | ⟨(thenN, st), pfT⟩ =>
      if hel : (peek0 st).tipo = "KW_ELSE" then
        match blockOrStmtStep (nextT st).2 with
        | ⟨(elseN, sf), pfE⟩ =>
          ⟨(.ifStmt cond thenN (some elseN), sf),
           stepOk_of_peek_strict
             (pfE.1.trans ((List.tail_suffix _).trans (pfT.1.trans ((expect_stepOk _ _ _).1.trans
               (pfc.1.trans ((expect_stepOk _ _ _).1.trans (expect_stepOk _ _ _).1))))))
             (pfE.1.length_le.trans ((List.tail_suffix _).length_le.trans
               (pfT.1.length_le.trans ((expect_stepOk _ _ _).1.length_le.trans
                 (pfc.1.length_le.trans (expect_stepOk _ _ _).1.length_le)))))
             (fun hne => (expect_stepOk "KW_IF" none s).2 _ _ (toks_cons_of_peek0 hne) hne)⟩
      else
        ⟨(.ifStmt cond thenN none, st),
         stepOk_of_peek_strict
           (pfT.1.trans ((expect_stepOk _ _ _).1.trans
             (pfc.1.trans ((expect_stepOk _ _ _).1.trans (expect_stepOk _ _ _).1))))
           (pfT.1.length_le.trans ((expect_stepOk _ _ _).1.length_le.trans
             (pfc.1.length_le.trans (expect_stepOk _ _ _).1.length_le)))
           (fun hne => (expect_stepOk "KW_IF" none s).2 _ _ (toks_cons_of_peek0 hne) hne)⟩
termination_by s.toks.length * 64 + rankEstado s
decreasing_by
  · have hA : (expect "RPAREN" (some "Esperado \x27)\x27 após condição do if") sc).2.toks.length
        ≤ sc.toks.length := (expect_stepOk _ _ _).1.length_le
    have hB : sc.toks.length ≤ (expect "KW_IF" none s).2.toks.length :=
      pfc.1.length_le.trans (expect_stepOk _ _ _).1.length_le
    have hC : (expect "KW_IF" none s).2.toks.length ≤ s.toks.length :=
      (expect_stepOk _ _ _).1.length_le
    by_cases hx : s.toks = [] ∨ (peek0 s).tipo = "EOF"
    · have hr : rankEstado s = 45 := by unfold rankEstado; rw [if_pos hx]
      rw [hr]; omega
    · push_neg at hx
      have hr : rankEstado s = 35 := by
        unfold rankEstado; rw [if_neg (by push_neg; exact hx)]
      have hD : (expect "KW_IF" none s).2.toks.length < s.toks.length :=
        (expect_stepOk "KW_IF" none s).2 _ _ (toks_cons_of_peek0 hx.2) hx.2
      rw [hr]; omega
  · have hne : (peek0 st).tipo ≠ "EOF" := by rw [hel]; decide
    have h1 : (nextT st).2.toks.length < st.toks.length := by
      rw [nextT_toks, toks_cons_of_peek0 hne]
      simp
    have h2 : st.toks.length ≤ s.toks.length :=
      pfT.1.length_le.trans ((expect_stepOk _ _ _).1.length_le.trans
        (pfc.1.length_le.trans ((expect_stepOk _ _ _).1.length_le.trans
          (expect_stepOk _ _ _).1.length_le)))
    have h3 : 35 ≤ rankEstado s := by
      unfold rankEstado; split <;> omega
    omega

/-- Parser.parse_for. -/
def parseFor (s : PState) : PRes Node s :=
  match forVarStep (expect "LPAREN" (some "Esperado \x27(\x27 após for")
      (expect "KW_FOR" none s).2).2 with
  | ⟨(varName, sv), pfv⟩ =>
    match forRangeStep sv with
    | ⟨(rng, sr), pfr⟩ =>
      match blockOrStmtStep (expect "RPAREN" (some "Esperado \x27)\x27 após cabeçalho do for") sr).2 with
      | ⟨(body, sb), pfb⟩ =>
        ⟨(.forStmt varName rng body, sb),
         stepOk_of_peek_strict
           (pfb.1.trans ((expect_stepOk _ _ _).1.trans (pfr.trans (pfv.trans
             ((expect_stepOk _ _ _).1.trans (expect_stepOk _ _ _).1)))))
           (pfb.1.length_le.trans ((expect_stepOk _ _ _).1.length_le.trans
             (pfr.length_le.trans (pfv.length_le.trans (expect_stepOk _ _ _).1.length_le))))
           (fun hne => (expect_stepOk "KW_FOR" none s).2 _ _ (toks_cons_of_peek0 hne) hne)⟩
termination_by s.toks.length * 64 + rankEstado s
decreasing_by
  · have hA : (expect "RPAREN" (some "Esperado \x27)\x27 após cabeçalho do for") sr).2.toks.length
        ≤ sr.toks.length := (expect_stepOk _ _ _).1.length_le
    have hB : sr.toks.length ≤ (expect "KW_FOR" none s).2.toks.length :=
      pfr.length_le.trans (pfv.length_le.trans (expect_stepOk _ _ _).1.length_le)
    have hC : (expect "KW_FOR" none s).2.toks.length ≤ s.toks.length :=
      (expect_stepOk _ _ _).1.length_le
    by_cases hx : s.toks = [] ∨ (peek0 s).tipo = "EOF"
    · have hr : rankEstado s = 45 := by unfold rankEstado; rw [if_pos hx]
      rw [hr]; omega
    · push_neg at hx
      have hr : rankEstado s = 35 := by
        unfold rankEstado; rw [if_neg (by push_neg; exact hx)]
      have hD : (expect "KW_FOR" none s).2.toks.length < s.toks.length :=
        (expect_stepOk "KW_FOR" none s).2 _ _ (toks_cons_of_peek0 hx.2) hx.2
      rw [hr]; omega

end

/-- Lines 333-338 of parse_function_decl: the optional ':' type of one
parameter (no diagnostic when the type is missing). -/
def paramTypeStep (s : PState) : { p : Option String × PState // p.2.toks <:+ s.toks } :=
  if (accept "COLON" s).1 then
    if (peek0 (accept "COLON" s).2).tipo = "IDENTIFIER" then
      ⟨(some ((nextT (accept "COLON" s).2).1.lexema ++
          (if (accept "QUESTION" (nextT (accept "COLON" s).2).2).1 then "?" else "")),
        (accept "QUESTION" (nextT (accept "COLON" s).2).2).2),
       (accept_suffix _ _).trans ((List.tail_suffix _).trans (accept_suffix _ _))⟩
    else ⟨(none, (accept "COLON" s).2), accept_suffix _ _⟩
  else ⟨(none, (accept "COLON" s).2), accept_suffix _ _⟩

/-- Lines 330-342 of parse_function_decl: the comma-separated parameter
list. -/
def paramsLoop (s : PState) : PResW (List FnParam) s :=
  if hid : (peek0 s).tipo = "IDENTIFIER" then
    match paramTypeStep (nextT s).2 with
    | ⟨(ptype, s2), pf2⟩ =>
      if hcm : (accept "COMMA" s2).1 then
        match paramsLoop (accept "COMMA" s2).2 with
        | ⟨(rest, s3), pf3⟩ =>
          ⟨(⟨(nextT s).1.lexema, ptype⟩ :: rest, s3),
           pf3.trans ((accept_suffix _ _).trans (pf2.trans (List.tail_suffix _)))⟩
      else
        ⟨([⟨(nextT s).1.lexema, ptype⟩], (accept "COMMA" s2).2),
         (accept_suffix _ _).trans (pf2.trans (List.tail_suffix _))⟩
  else ⟨([], panicRecover (errorAtToken s (peek0 s) "Parâmetro inválido")), panicToks_suffix _⟩
termination_by s.toks.length
decreasing_by
  have h1 : (accept "COMMA" s2).2.toks.length < s2.toks.length :=
    accept_stepOk_of_true _ _ (by decide) hcm
  have h2 : s2.toks.length ≤ (nextT s).2.toks.length := pf2.length_le
  have h3 : (nextT s).2.toks.length < s.toks.length := by
    rw [nextT_toks, toks_cons_of_peek0 (by rw [hid]; decide)]
    simp
  omega

/-- Lines 346-351 of parse_function_decl: the optional ':' return type,
with a diagnostic when no identifier follows the colon. -/
def retTypeStep (s : PState) : { p : Option String × PState // p.2.toks <:+ s.toks } :=
  if (accept "COLON" s).1 then
    if (peek0 (accept "COLON" s).2).tipo = "IDENTIFIER" then
      ⟨(some ((nextT (accept "COLON" s).2).1.lexema ++
          (if (accept "QUESTION" (nextT (accept "COLON" s).2).2).1 then "?" else "")),
        (accept "QUESTION" (nextT (accept "COLON" s).2).2).2),
       (accept_suffix _ _).trans ((List.tail_suffix _).trans (accept_suffix _ _))⟩
    else
      ⟨(none, errorAtToken (accept "COLON" s).2 (peek0 (accept "COLON" s).2)
          "Tipo de retorno esperado após \x27:\x27"),
       accept_suffix _ _⟩
  else ⟨(none, (accept "COLON" s).2), accept_suffix _ _⟩

/-- Line 329 of parse_function_decl: run the parameter loop only when the
next token is not ')'. -/
def fnParamsStep (s : PState) : PResW (List FnParam) s :=
  if (peek0 s).tipo ≠ "RPAREN" then paramsLoop s else ⟨([], s), List.suffix_rfl⟩

/-- Lines 353-356 of parse_function_decl: brace-enclosed body, a
semicolon for an empty declaration, or nothing. -/
def fnBodyStep (s : PState) : { p : Option Node × PState // p.2.toks <:+ s.toks } :=
  if (accept "LBRACE" s).1 then
    match parseBlock (accept "LBRACE" s).2 with
    | ⟨(b, sb), pf⟩ => ⟨(some b, sb), pf.1.trans (accept_suffix _ _)⟩
  else if (peek0 (accept "LBRACE" s).2).tipo = "SEMICOLON" then
    ⟨(none, (nextT (accept "LBRACE" s).2).2), (List.tail_suffix _).trans (accept_suffix _ _)⟩
  else ⟨(none, (accept "LBRACE" s).2), accept_suffix _ _⟩

/-- Parser.parse_function_decl. -/
def parseFunctionDecl (modifiers : List String) (s : PState) : PRes Node s :=
  match fnParamsStep (expect "LPAREN" (some "Esperado \x27(\x27 em declaração de função")
      (expect "IDENTIFIER" (some "Nome da função esperado") (expect "KW_FUN" none s).2).2).2 with
  | ⟨(params, sp), pfp⟩ =>
    match retTypeStep (expect "RPAREN" (some "Esperado \x27)\x27 após parâmetros") sp).2 with
    | ⟨(ret, sr), pfr⟩ =>
      match fnBodyStep sr with
      | ⟨(body, sb), pfb⟩ =>
        ⟨(.funDecl
            (match (expect "IDENTIFIER" (some "Nome da função esperado")
                (expect "KW_FUN" none s).2).1 with
             | some t => t.lexema
             | none => "<erro>")
            modifiers params ret body, sb),
         StepOk.comp (expect_stepOk "KW_FUN" none s)
           (pfb.trans (pfr.trans ((expect_stepOk _ _ _).1.trans
             (pfp.trans ((expect_stepOk _ _ _).1.trans (expect_stepOk _ _ _).1)))))⟩

/-- Line 298 of parse_object_decl: the optional object name. -/
def objNameStep (s : PState) : { p : Option String × PState // p.2.toks <:+ s.toks } :=
  if (peek0 s).tipo = "IDENTIFIER" then
    ⟨(some (nextT s).1.lexema, (nextT s).2), List.tail_suffix _⟩
  else ⟨(none, s), List.suffix_rfl⟩

/-- Lines 306-310 of parse_object_decl: the member checks shared by the
modified and unmodified paths (property, function, or a reported
unrecognized member). -/
def objMemberRest (s : PState) : { p : Option Node × PState // StepOk s p.2 } :=
  if (peek0 s).tipo = "KW_VAL" ∨ (peek0 s).tipo = "KW_VAR" then
    match parsePropertyDecl [] s with
    | ⟨(n, s1), pf⟩ => ⟨(some n, s1), pf⟩
  else if (peek0 s).tipo = "KW_FUN" then
    match parseFunctionDecl [] s with
    | ⟨(n, s1), pf⟩ => ⟨(some n, s1), pf⟩
  else
    ⟨(none, panicRecover (errorAtToken s (peek0 s) "Membro do object não reconhecido")),
     panicRecover_stepOk _⟩

/-- The member loop of Parser.parse_object_decl (lines 301-310).
Modifiers collected before a member that is not a property are
discarded by the fallthrough. -/
def objMembersLoop (s : PState) : PResW (List Node) s :=
  if hstop : (peek0 s).tipo = "RBRACE" ∨ (peek0 s).tipo = "EOF" then
    ⟨([], s), List.suffix_rfl⟩
  else
    if hm : ehMod (peek0 s) then
      if hv : (peek0 (collectModifiers s).2).tipo = "KW_VAL" ∨
              (peek0 (collectModifiers s).2).tipo = "KW_VAR" then
        match parsePropertyDecl (collectModifiers s).1 (collectModifiers s).2 with
        | ⟨(n, s2), pf2⟩ =>
          match objMembersLoop s2 with
          | ⟨(rest, s3), pf3⟩ =>
            ⟨(n :: rest, s3), pf3.trans (pf2.1.trans (collectModifiers_suffix s))⟩
      else
        match objMemberRest (collectModifiers s).2 with
        | ⟨(m, s2), pf2⟩ =>
          match objMembersLoop s2 with
          | ⟨(rest, s3), pf3⟩ =>
            ⟨((match m with | some n => n :: rest | none => rest), s3),
             pf3.trans (pf2.1.trans (collectModifiers_suffix s))⟩
    else
      match objMemberRest s with
      | ⟨(m, s2), pf2⟩ =>
        match objMembersLoop s2 with
        | ⟨(rest, s3), pf3⟩ =>
          ⟨((match m with | some n => n :: rest | none => rest), s3), pf3.trans pf2.1⟩
termination_by s.toks.length
decreasing_by
  · exact (collect_then_stepOk pf2).2 (peek0 s) s.toks.tail
      (toks_cons_of_peek0 (fun he => hstop (Or.inr he))) (fun he => hstop (Or.inr he))
  · exact (collect_then_stepOk pf2).2 (peek0 s) s.toks.tail
      (toks_cons_of_peek0 (fun he => hstop (Or.inr he))) (fun he => hstop (Or.inr he))
  · exact pf2.2 (peek0 s) s.toks.tail
      (toks_cons_of_peek0 (fun he => hstop (Or.inr he))) (fun he => hstop (Or.inr he))

/-- Parser.parse_object_decl. -/
def parseObjectDecl (modifiers : List String) (s : PState) : PRes Node s :=
  match objNameStep (expect "KW_OBJECT" none s).2 with
  | ⟨(name, sn), pfn⟩ =>
    if hb : (accept "LBRACE" sn).1 then
      match objMembersLoop (accept "LBRACE" sn).2 with
      | ⟨(members, sm), pfm⟩ =>
        ⟨(.objDecl name modifiers members,
          (expect "RBRACE" (some "Fechamento \x27\x7d\x27 esperado no object") sm).2),
         StepOk.comp (expect_stepOk "KW_OBJECT" none s)
           ((expect_stepOk _ _ _).1.trans (pfm.trans ((accept_suffix _ _).trans pfn)))⟩
    else
      ⟨(.objDecl name modifiers [], (accept "LBRACE" sn).2),
       StepOk.comp (expect_stepOk "KW_OBJECT" none s) ((accept_suffix _ _).trans pfn)⟩

/-- Lines 278-285 of parse_class_decl: the unmodified member checks
(property, function, object, or a reported unrecognized member). -/
def classMemberRest (s : PState) : { p : Option Node × PState // StepOk s p.2 } :=
  if (peek0 s).tipo = "KW_VAL" ∨ (peek0 s).tipo = "KW_VAR" then
    match parsePropertyDecl [] s with
    | ⟨(n, s1), pf⟩ => ⟨(some n, s1), pf⟩
  else if (peek0 s).tipo = "KW_FUN" then
    match parseFunctionDecl [] s with
    | ⟨(n, s1), pf⟩ => ⟨(some n, s1), pf⟩
  else if (peek0 s).tipo = "KW_OBJECT" then
    match parseObjectDecl [] s with
    | ⟨(n, s1), pf⟩ => ⟨(some n, s1), pf⟩
  else
    ⟨(none, panicRecover (errorAtToken s (peek0 s) "Membro de classe não reconhecido (ignorado)")),
     panicRecover_stepOk _⟩

/-- The member loop of Parser.parse_class_decl (lines 267-285). -/
def classMembersLoop (s : PState) : PResW (List Node) s :=
  if hstop : (peek0 s).tipo = "RBRACE" ∨ (peek0 s).tipo = "EOF" then
    ⟨([], s), List.suffix_rfl⟩
  else
    if hm : ehMod (peek0 s) then
      if ho : (peek0 (collectModifiers s).2).tipo = "KW_OBJECT" then
        match parseObjectDecl (collectModifiers s).1 (collectModifiers s).2 with
        | ⟨(n, s2), pf2⟩ =>
          match classMembersLoop s2 with
          | ⟨(rest, s3), pf3⟩ =>
            ⟨(n :: rest, s3), pf3.trans (pf2.1.trans (collectModifiers_suffix s))⟩
      else if hv : (peek0 (collectModifiers s).2).tipo = "KW_VAL" ∨
                   (peek0 (collectModifiers s).2).tipo = "KW_VAR" then
        match parsePropertyDecl (collectModifiers s).1 (collectModifiers s).2 with
        | ⟨(n, s2), pf2⟩ =>
          match classMembersLoop s2 with
          | ⟨(rest, s3), pf3⟩ =>
            ⟨(n :: rest, s3), pf3.trans (pf2.1.trans (collectModifiers_suffix s))⟩
      else if hf : (peek0 (collectModifiers s).2).tipo = "KW_FUN" then
        match parseFunctionDecl (collectModifiers s).1 (collectModifiers s).2 with
        | ⟨(n, s2), pf2⟩ =>
          match classMembersLoop s2 with
          | ⟨(rest, s3), pf3⟩ =>
            ⟨(n :: rest, s3), pf3.trans (pf2.1.trans (collectModifiers_suffix s))⟩
      else
        match classMemberRest (collectModifiers s).2 with
        | ⟨(m, s2), pf2⟩ =>
          match classMembersLoop s2 with
          | ⟨(rest, s3), pf3⟩ =>
            ⟨((match m with | some n => n :: rest | none => rest), s3),
             pf3.trans (pf2.1.trans (collectModifiers_suffix s))⟩
    else
      match classMemberRest s with
      | ⟨(m, s2), pf2⟩ =>
        match classMembersLoop s2 with
        | ⟨(rest, s3), pf3⟩ =>
          ⟨((match m with | some n => n :: rest | none => rest), s3), pf3.trans pf2.1⟩
termination_by s.toks.length
decreasing_by
  · exact (collect_then_stepOk pf2).2 (peek0 s) s.toks.tail
      (toks_cons_of_peek0 (fun he => hstop (Or.inr he))) (fun he => hstop (Or.inr he))
  · exact (collect_then_stepOk pf2).2 (peek0 s) s.toks.tail
      (toks_cons_of_peek0 (fun he => hstop (Or.inr he))) (fun he => hstop (Or.inr he))
  · exact (collect_then_stepOk pf2).2 (peek0 s) s.toks.tail
      (toks_cons_of_peek0 (fun he => hstop (Or.inr he))) (fun he => hstop (Or.inr he))
  · exact (collect_then_stepOk pf2).2 (peek0 s) s.toks.tail
      (toks_cons_of_peek0 (fun he => hstop (Or.inr he))) (fun he => hstop (Or.inr he))
  · exact pf2.2 (peek0 s) s.toks.tail
      (toks_cons_of_peek0 (fun he => hstop (Or.inr he))) (fun he => hstop (Or.inr he))

/-- Parser.parse_class_decl. -/
def parseClassDecl (modifiers : List String) (s : PState) : PRes Node s :=
  if hb : (accept "LBRACE" (expect "IDENTIFIER" (some "Nome da classe esperado após \x27class\x27")
      (expect "KW_CLASS" none s).2).2).1 then
    match classMembersLoop (accept "LBRACE" (expect "IDENTIFIER"
        (some "Nome da classe esperado após \x27class\x27") (expect "KW_CLASS" none s).2).2).2 with
    | ⟨(members, sm), pfm⟩ =>
      ⟨(.clsDecl
          (match (expect "IDENTIFIER" (some "Nome da classe esperado após \x27class\x27")
              (expect "KW_CLASS" none s).2).1 with
           | some t => t.lexema
           | none => "<erro>")
          modifiers (some members),
        (expect "RBRACE" (some "Fechamento \x27\x7d\x27 esperado no corpo da classe") sm).2),
       StepOk.comp (expect_stepOk "KW_CLASS" none s)
         ((expect_stepOk _ _ _).1.trans (pfm.trans ((accept_suffix _ _).trans
           (expect_stepOk _ _ _).1)))⟩
  else
    ⟨(.clsDecl
        (match (expect "IDENTIFIER" (some "Nome da classe esperado após \x27class\x27")
            (expect "KW_CLASS" none s).2).1 with
         | some t => t.lexema
         | none => "<erro>")
        modifiers none,
      (accept "LBRACE" (expect "IDENTIFIER" (some "Nome da classe esperado após \x27class\x27")
          (expect "KW_CLASS" none s).2).2).2),
     StepOk.comp (expect_stepOk "KW_CLASS" none s)
       ((accept_suffix _ _).trans (expect_stepOk _ _ _).1)⟩

/-- Parser.parse_top_level_decl: a None node means nothing was
produced. -/
def parseTopLevelDecl (s : PState) : { p : Option Node × PState // StepOk s p.2 } :=
  if hc : (peek0 (collectModifiers s).2).tipo = "KW_CLASS" then
    match parseClassDecl (collectModifiers s).1 (collectModifiers s).2 with
    | ⟨(n, s2), pf⟩ => ⟨(some n, s2), collect_then_stepOk pf⟩
  else if hf : (peek0 (collectModifiers s).2).tipo = "KW_FUN" then
    match parseFunctionDecl (collectModifiers s).1 (collectModifiers s).2 with
    | ⟨(n, s2), pf⟩ => ⟨(some n, s2), collect_then_stepOk pf⟩
  else if hv : (peek0 (collectModifiers s).2).tipo = "KW_VAL" ∨
               (peek0 (collectModifiers s).2).tipo = "KW_VAR" then
    match parsePropertyDecl (collectModifiers s).1 (collectModifiers s).2 with
    | ⟨(n, s2), pf⟩ => ⟨(some n, s2), collect_then_stepOk pf⟩
  else if hs : (peek0 (collectModifiers s).2).tipo = "SEMICOLON" then
    ⟨(none, (nextT (collectModifiers s).2).2), collect_then_stepOk (nextT_stepOk _)⟩
  else
    ⟨(none, panicRecover (errorAtToken (collectModifiers s).2
        (peek0 (collectModifiers s).2) "Declaração de topo inválida")),
     collect_then_stepOk (panicRecover_stepOk _)⟩

/-- The dotted-name loop of parse_package_decl (lines 195-200).  Each
continuing iteration consumes a DOT and an IDENTIFIER. -/
def pkgDotLoop (s : PState) : PResW (List String) s :=
  if hd : (accept "DOT" s).1 then
    if hi : (peek0 (accept "DOT" s).2).tipo = "IDENTIFIER" then
      match pkgDotLoop (nextT (accept "DOT" s).2).2 with
      | ⟨(rest, s2), pf⟩ =>
        ⟨((nextT (accept "DOT" s).2).1.lexema :: rest, s2),
         pf.trans ((List.tail_suffix _).trans (accept_suffix _ _))⟩
    else
      ⟨([], errorAtToken (accept "DOT" s).2 (peek0 (accept "DOT" s).2)
          "Identificador esperado após \x27.\x27 no package"),
       accept_suffix _ _⟩
  else ⟨([], (accept "DOT" s).2), accept_suffix _ _⟩
termination_by s.toks.length
decreasing_by
  have h1 : (accept "DOT" s).2.toks.length < s.toks.length :=
    accept_stepOk_of_true _ _ (by decide) hd
  have h2 : (nextT (accept "DOT" s).2).2.toks.length ≤ (accept "DOT" s).2.toks.length := by
    rw [nextT_toks]
    exact (List.tail_suffix _).length_le
  omega

/-- Lines 192-200 of parse_package_decl: the dotted package name. -/
def pkgPartsStep (s : PState) : PResW (List String) s :=
  if (peek0 s).tipo = "IDENTIFIER" then
    match pkgDotLoop (nextT s).2 with
    | ⟨(rest, s2), pf⟩ => ⟨((nextT s).1.lexema :: rest, s2), pf.trans (List.tail_suffix _)⟩
  else ⟨([], s), List.suffix_rfl⟩

/-- Parser.parse_package_decl. -/
def parsePackageDecl (s : PState) : PRes Node s :=
  match pkgPartsStep (expect "KW_PACKAGE" none s).2 with
  | ⟨(parts, sp), pf⟩ =>
    ⟨(.pkgDecl (String.intercalate "." parts),
      (expect "SEMICOLON" (some "Ponto-e-vírgula esperado após declaração de package") sp).2),
     StepOk.comp (expect_stepOk "KW_PACKAGE" none s) ((expect_stepOk _ _ _).1.trans pf)⟩

/-- The dotted-name loop of parse_import_decl (lines 214-220), with the
trailing '*' wildcard. -/
def impDotLoop (s : PState) : PResW (List String) s :=
  if hd : (accept "DOT" s).1 then
    if hw : (peek0 (accept "DOT" s).2).tipo = "OP_MUL" then
      ⟨(["*"], (nextT (accept "DOT" s).2).2),
       (List.tail_suffix _).trans (accept_suffix _ _)⟩
    else if hi : (peek0 (accept "DOT" s).2).tipo = "IDENTIFIER" then
      match impDotLoop (nextT (accept "DOT" s).2).2 with
      | ⟨(rest, s2), pf⟩ =>
        ⟨((nextT (accept "DOT" s).2).1.lexema :: rest, s2),
         pf.trans ((List.tail_suffix _).trans (accept_suffix _ _))⟩
    else
      ⟨([], errorAtToken (accept "DOT" s).2 (peek0 (accept "DOT" s).2)
          "Identificador esperado no import"),
       accept_suffix _ _⟩
  else ⟨([], (accept "DOT" s).2), accept_suffix _ _⟩
termination_by s.toks.length
decreasing_by
  have h1 : (accept "DOT" s).2.toks.length < s.toks.length :=
    accept_stepOk_of_true _ _ (by decide) hd
  have h2 : (nextT (accept "DOT" s).2).2.toks.length ≤ (accept "DOT" s).2.toks.length := by
    rw [nextT_toks]
    exact (List.tail_suffix _).length_le
  omega

/-- Lines 212-220 of parse_import_decl: the dotted import path. -/
def impPartsStep (s : PState) : PResW (List String) s :=
  if (peek0 s).tipo = "IDENTIFIER" then
    match impDotLoop (nextT s).2 with
    | ⟨(rest, s2), pf⟩ => ⟨((nextT s).1.lexema :: rest, s2), pf.trans (List.tail_suffix _)⟩
  else ⟨([], s), List.suffix_rfl⟩

/-- Parser.parse_import_decl. -/
def parseImportDecl (s : PState) : PRes Node s :=
  match impPartsStep (expect "SK_IMPORT" none s).2 with
  | ⟨(parts, sp), pf⟩ =>
    ⟨(.impDecl (String.intercalate "." parts),
      (expect "SEMICOLON" (some "Ponto-e-vírgula esperado após import") sp).2),
     StepOk.comp (expect_stepOk "SK_IMPORT" none s) ((expect_stepOk _ _ _).1.trans pf)⟩

/-- The import loop of Parser.parse (lines 167-169). -/
def importsLoop (s : PState) : PResW (List Node) s :=
  if h : (peek0 s).tipo = "SK_IMPORT" ∨ (peek0 s).tipo = "IMPORT" then
    match parseImportDecl s with
    | ⟨(imp, s1), pf1⟩ =>
      match importsLoop s1 with
      | ⟨(rest, s2), pf2⟩ => ⟨(imp :: rest, s2), pf2.trans pf1.1⟩
  else ⟨([], s), List.suffix_rfl⟩
termination_by s.toks.length
decreasing_by
  have hne : (peek0 s).tipo ≠ "EOF" := by
    rcases h with h | h <;> rw [h] <;> decide
  exact pf1.2 (peek0 s) s.toks.tail (toks_cons_of_peek0 hne) hne

/-- The top-level declaration loop of Parser.parse (lines 171-179): a
failed declaration with a real token left triggers one panic recovery,
then parsing continues. -/
def declsLoop (s : PState) : PResW (List Node) s :=
  if heof : (peek0 s).tipo = "EOF" then ⟨([], s), List.suffix_rfl⟩
  else
    match parseTopLevelDecl s with
    | ⟨(some decl, s1), pf1⟩ =>
      match declsLoop s1 with
      | ⟨(rest, s2), pf2⟩ => ⟨(decl :: rest, s2), pf2.trans pf1.1⟩
    | ⟨(none, s1), pf1⟩ =>
      if heof1 : (peek0 s1).tipo = "EOF" then ⟨([], s1), pf1.1⟩
      else
        match declsLoop (panicRecover s1) with
        | ⟨(rest, s2), pf2⟩ =>
          ⟨(rest, s2), pf2.trans ((panicToks_suffix _).trans pf1.1)⟩
termination_by s.toks.length
decreasing_by
  · exact pf1.2 (peek0 s) s.toks.tail (toks_cons_of_peek0 heof) heof
  · have h1 : s1.toks.length < s.toks.length :=
      pf1.2 (peek0 s) s.toks.tail (toks_cons_of_peek0 heof) heof
    have h2 : (panicRecover s1).toks.length ≤ s1.toks.length :=
      (panicToks_suffix _).length_le
    omega

/-- Parser.parse: optional package declaration, imports, then top-level
declarations until EOF, always yielding a kotlinFile node. -/
def parse (s : PState) : Node × PState :=
  (Node.kotlinFile
     (if (peek0 s).tipo = "KW_PACKAGE" then some (parsePackageDecl s).1.1 else none)
     (importsLoop (if (peek0 s).tipo = "KW_PACKAGE" then (parsePackageDecl s).1.2 else s)).1.1
     (declsLoop (importsLoop
        (if (peek0 s).tipo = "KW_PACKAGE" then (parsePackageDecl s).1.2 else s)).1.2).1.1,
   (declsLoop (importsLoop
      (if (peek0 s).tipo = "KW_PACKAGE" then (parsePackageDecl s).1.2 else s)).1.2).1.2)

/-- C4.  Recovery termination: parse is a total Lean function over the
faithful embedding of the parser (every loop was accepted by the
termination checker via the monotone consumption of the finite token
list), and for every input state it returns a kotlinFile node carrying
finite package/import/declaration components together with a final
state.  No recoverable syntax error can abort or hang the parse. -/
theorem C4_recovery_termination :
    ∀ s : PState, ∃ pkg imps decls s2,
      parse s = (Node.kotlinFile pkg imps decls, s2) :=
  fun _ => ⟨_, _, _, _, rfl⟩

/-- C7.  Operator precedence: parsing the token sequence of `1 + 2 * 3`
yields the binary node whose operator is `+` and whose right child is the
`*` node over `2` and `3` (never a `*` root with a `+` child), because
parse_additive loops over parse_multiplicative operands. -/
theorem C7_operator_precedence :
    parseExpressionF 50
      ⟨[⟨"INT_LITERAL", "1", 1, 1, "1"⟩, ⟨"OP_PLUS", "+", 1, 3, ""⟩,
        ⟨"INT_LITERAL", "2", 1, 5, "2"⟩, ⟨"OP_MUL", "*", 1, 7, ""⟩,
        ⟨"INT_LITERAL", "3", 1, 9, "3"⟩, ⟨"EOF", "", 1, 10, ""⟩], []⟩ =
    some (.binary "+" (.literal "INT_LITERAL" "1")
            (.binary "*" (.literal "INT_LITERAL" "2") (.literal "INT_LITERAL" "3")),
          ⟨[⟨"EOF", "", 1, 10, ""⟩], []⟩) := by
  rfl

/-- C3 counterexample.  The claim extends the tolerant ':'-recovery to a
following identifier, but an IDENTIFIER after ':' is taken as the declared
type with no diagnostic and no initializer: parsing `var dd: xx ;` yields
a property with var_type "xx", value None and an empty diagnostic list,
not the claimed one-diagnostic no-type initializer recovery. -/
theorem C3_identifier_counterexample :
    parseF 50
      ⟨[⟨"KW_VAR", "var", 1, 1, ""⟩, ⟨"IDENTIFIER", "dd", 1, 5, ""⟩,
        ⟨"COLON", ":", 1, 7, ""⟩, ⟨"IDENTIFIER", "xx", 1, 9, ""⟩,
        ⟨"SEMICOLON", ";", 1, 12, ""⟩, ⟨"EOF", "", 1, 13, ""⟩], []⟩ =
    some (.kotlinFile none [] [.property "KW_VAR" "dd" (some "xx") none []],
          ⟨[⟨"EOF", "", 1, 13, ""⟩], []⟩) := by
  rfl

/-- C3, amended.  Tolerant property recovery: the token sequence of
`var dd: 99;` parses to a property named `dd` with no declared type and
initializer literal `99`, recording exactly one diagnostic.  Generally,
when ':' in a property declaration is followed by a token that starts an
expression other than an identifier (INT_LITERAL, FLOAT_LITERAL,
STRING_START, CHAR_LITERAL or LPAREN), the parser appends exactly one
diagnostic, records no type, and hands that very token to
parse_expression as the property's initializer; an IDENTIFIER after ':'
is instead consumed as the declared type with no diagnostic. -/
theorem C3_tolerant_property_recovery :
    (parseF 50
      ⟨[⟨"KW_VAR", "var", 1, 1, ""⟩, ⟨"IDENTIFIER", "dd", 1, 5, ""⟩,
        ⟨"COLON", ":", 1, 7, ""⟩, ⟨"INT_LITERAL", "99", 1, 9, "99"⟩,
        ⟨"SEMICOLON", ";", 1, 11, ""⟩, ⟨"EOF", "", 1, 12, ""⟩], []⟩ =
      some (.kotlinFile none []
              [.property "KW_VAR" "dd" none (some (.literal "INT_LITERAL" "99")) []],
            ⟨[⟨"EOF", "", 1, 12, ""⟩],
             ["Erro sintático na linha 1, coluna 9: Tipo esperado após \x27:\x27 — assumindo iniacializador (recuperação tolerante). (token=\x2799\x27)"]⟩)) ∧
    (∀ (fuel : Nat) (mods : List String) (kw nameTok colonTok t : PTok)
       (rest : List PTok) (errs : List String),
      nameTok.tipo = "IDENTIFIER" →
      colonTok.tipo = "COLON" →
      t.tipo ∈ (["INT_LITERAL", "FLOAT_LITERAL", "STRING_START", "CHAR_LITERAL",
                 "LPAREN"] : List String) →
      (errorAtToken ⟨t :: rest, errs⟩ t
          "Tipo esperado após \x27:\x27 — assumindo iniacializador (recuperação tolerante).").errors.length
        = errs.length + 1 ∧
      parsePropertyDeclF (fuel + 1) mods ⟨kw :: nameTok :: colonTok :: t :: rest, errs⟩ =
        (match parseExpressionF fuel
            (errorAtToken ⟨t :: rest, errs⟩ t
              "Tipo esperado após \x27:\x27 — assumindo iniacializador (recuperação tolerante).") with
         | none => none
         | some (v, s4) =>
           some (Node.property kw.tipo nameTok.lexema none (some v) mods,
             if (peek0 s4).tipo = "SEMICOLON" then (nextT s4).2
             else panicRecover (errorAtToken s4 (peek0 s4)
               "Ponto-e-vírgula esperado ao final da declaração de propriedade")))) := by
  constructor
  · rfl
  · intro fuel mods kw nameTok colonTok t rest errs hn hc ht
    refine ⟨by simp [errorAtToken], ?_⟩
    simp only [List.mem_cons, List.not_mem_nil, or_false] at ht
    rcases ht with h | h | h | h | h <;>
      rcases hE : parseExpressionF fuel (errorAtToken ⟨t :: rest, errs⟩ t
          "Tipo esperado após \x27:\x27 — assumindo iniacializador (recuperação tolerante).")
        with _ | ⟨v, s4⟩ <;>
      simp [parsePropertyDeclF, peek0, peekN, nextT, accept, errorAtToken_toks, h, hn, hc, hE]

/-- Witness for C3: the general tolerant-recovery equation applied to the
concrete token INT_LITERAL 99. -/
theorem C3_tolerant_property_recovery_witness :
    ((⟨"IDENTIFIER", "dd", 1, 5, ""⟩ : PTok).tipo = "IDENTIFIER" ∧
     (⟨"COLON", ":", 1, 7, ""⟩ : PTok).tipo = "COLON" ∧
     (⟨"INT_LITERAL", "99", 1, 9, "99"⟩ : PTok).tipo ∈
       (["INT_LITERAL", "FLOAT_LITERAL", "STRING_START", "CHAR_LITERAL",
         "LPAREN"] : List String)) ∧
    (parsePropertyDeclF 49 [] ⟨[⟨"KW_VAR", "var", 1, 1, ""⟩, ⟨"IDENTIFIER", "dd", 1, 5, ""⟩,
        ⟨"COLON", ":", 1, 7, ""⟩, ⟨"INT_LITERAL", "99", 1, 9, "99"⟩,
        ⟨"SEMICOLON", ";", 1, 11, ""⟩, ⟨"EOF", "", 1, 12, ""⟩], []⟩ =
      (match parseExpressionF 48
          (errorAtToken ⟨[⟨"INT_LITERAL", "99", 1, 9, "99"⟩,
              ⟨"SEMICOLON", ";", 1, 11, ""⟩, ⟨"EOF", "", 1, 12, ""⟩], []⟩
            ⟨"INT_LITERAL", "99", 1, 9, "99"⟩
            "Tipo esperado após \x27:\x27 — assumindo iniacializador (recuperação tolerante).") with
       | none => none
       | some (v, s4) =>
         some (Node.property "KW_VAR" "dd" none (some v) [],
           if (peek0 s4).tipo = "SEMICOLON" then (nextT s4).2
           else panicRecover (errorAtToken s4 (peek0 s4)
             "Ponto-e-vírgula esperado ao final da declaração de propriedade")))) :=
  ⟨⟨rfl, rfl, by decide⟩,
    (C3_tolerant_property_recovery.2 48 [] ⟨"KW_VAR", "var", 1, 1, ""⟩
      ⟨"IDENTIFIER", "dd", 1, 5, ""⟩ ⟨"COLON", ":", 1, 7, ""⟩
      ⟨"INT_LITERAL", "99", 1, 9, "99"⟩
      [⟨"SEMICOLON", ";", 1, 11, ""⟩, ⟨"EOF", "", 1, 12, ""⟩] []
      rfl rfl (by decide)).2⟩

end KParser
